import Mathlib

/-!
Verification of the OpenRTB bid-request validation engine
(`bidRequestValidator`, the rule pipeline behind `validateBidRequest`).

The engine is JavaScript operating on untyped JSON data, so the embedding
models a JavaScript value (`JsVal`, including `undefined`), JavaScript
truthiness, strict equality, member access (which throws a `TypeError` on
`null`/`undefined` receivers), the numeric coercions the rules rely on, and
`JSON.parse` / `JSON.stringify`.  JavaScript numbers are modelled as exact
rationals (`Rat`); every numeric literal and comparison in the rule catalog
is exact at the magnitudes the rules use, and the one rendered rounding
(`toFixed(2)`) is modelled by the same round-half-up rule the spec of
`toFixed` prescribes.  Fallible evaluation is `Except JsError`.
-/

namespace BidVal

/-- A JavaScript runtime value as seen by the validator: the six JSON shapes
plus `undefined`, which member access on a missing property produces. -/
inductive JsVal where
  | undefined
  | null
  | bool (b : Bool)
  | num (q : Rat)
  | str (s : String)
  | arr (elems : List JsVal)
  | obj (fields : List (String × JsVal))
deriving Repr

/-- The two ways a call into the engine can fail: the guarded top-level
`JSON.parse` failure (`Error('Invalid JSON format')`) and an uncaught
`TypeError` from member access / method call on an unsuitable receiver. -/
inductive JsError where
  | invalidJson
  | typeError
deriving Repr, DecidableEq

mutual

def JsVal.beqVal : JsVal → JsVal → Bool
  | .undefined, .undefined => true
  | .null, .null => true
  | .bool a, .bool b => a == b
  | .num a, .num b => a = b
  | .str a, .str b => a == b
  | .arr a, .arr b => JsVal.beqList a b
  | .obj a, .obj b => JsVal.beqFields a b
  | _, _ => false

def JsVal.beqList : List JsVal → List JsVal → Bool
  | [], [] => true
  | a :: as', b :: bs => JsVal.beqVal a b && JsVal.beqList as' bs
  | _, _ => false

def JsVal.beqFields : List (String × JsVal) → List (String × JsVal) → Bool
  | [], [] => true
  | (k, a) :: as', (l, b) :: bs => k == l && JsVal.beqVal a b && JsVal.beqFields as' bs
  | _, _ => false

end

instance : BEq JsVal := ⟨JsVal.beqVal⟩


/-- JavaScript truthiness of a value (`if (x)`).  `NaN` does not arise from
parsed JSON, so `num` is falsy exactly at `0`. -/
def truthy : JsVal → Bool
  | .undefined => false
  | .null => false
  | .bool b => b
  | .num q => decide (q ≠ 0)
  | .str s => decide (s ≠ "")
  | .arr _ => true
  | .obj _ => true

def JsVal.isUndefined : JsVal → Bool
  | .undefined => true
  | _ => false

/-- Member access on a receiver known not to be `null`/`undefined` (and the
value of `a?.b`, which short-circuits those receivers to `undefined`).
Missing properties read as `undefined`; the only built-in property the rules
read is `length` on arrays and strings. -/
def optGet : JsVal → String → JsVal
  | .obj fields, key =>
      match fields.lookup key with
      | some v => v
      | none => .undefined
  | .arr elems, key => if key == "length" then .num elems.length else .undefined
  | .str s, key => if key == "length" then .num s.length else .undefined
  | _, _ => .undefined

/-- Plain member access `a.b`: throws a `TypeError` when the receiver is
`null` or `undefined`, otherwise behaves as `optGet`. -/
def getF : JsVal → String → Except JsError JsVal
  | .null, _ => .error .typeError
  | .undefined, _ => .error .typeError
  | v, key => .ok (optGet v key)

/-- Strict equality `===` as the rules use it: every comparison in the rule
catalog is against a primitive literal, and distinct object/array references
are never `===`, so object and array operands compare unequal. -/
def jsEq : JsVal → JsVal → Bool
  | .undefined, .undefined => true
  | .null, .null => true
  | .bool a, .bool b => a == b
  | .num a, .num b => decide (a = b)
  | .str a, .str b => a == b
  | _, _ => false

def typeofNumber : JsVal → Bool
  | .num _ => true
  | _ => false

def typeofString : JsVal → Bool
  | .str _ => true
  | _ => false

/-- `Number.isInteger`. -/
def numIsInteger : JsVal → Bool
  | .num q => q.den == 1
  | _ => false

end BidVal

namespace BidVal

/-! ### Number rendering and coercion -/

/-!
Exact rational arithmetic helpers.  Every operation is written through
`mkRat` and integer primitives so that concrete runs of the engine reduce
inside the kernel; they agree with the field operations on `Rat`.
-/

def ratAdd (a b : Rat) : Rat := mkRat (a.num * b.den + b.num * a.den) (a.den * b.den)

def ratSub (a b : Rat) : Rat := mkRat (a.num * b.den - b.num * a.den) (a.den * b.den)

def ratMul (a b : Rat) : Rat := mkRat (a.num * b.num) (a.den * b.den)

def ratNeg (a : Rat) : Rat := mkRat (-a.num) a.den

/-- `a / b`; division by zero gives `0` (callers rule it out beforehand,
mirroring the JavaScript code paths that guard the divisor). -/
def ratDiv (a b : Rat) : Rat :=
  if b.num < 0 then mkRat (-(a.num * b.den)) (a.den * b.num.natAbs)
  else mkRat (a.num * b.den) (a.den * b.num.natAbs)

def ratAbs (a : Rat) : Rat := mkRat (Int.ofNat a.num.natAbs) a.den

def ratFloor (a : Rat) : Int := Int.fdiv a.num a.den

def intStr (i : Int) : String :=
  if i < 0 then "-" ++ Nat.repr i.natAbs else Nat.repr i.natAbs

def padZeros (width : Nat) (s : String) : String :=
  ⟨List.replicate (width - s.length) '0'⟩ ++ s

/-- Least number of decimal places that renders `den` exactly, when one
exists within double precision range. -/
def decPlaces (den : Nat) : Option Nat :=
  ((List.range 40).map (· + 1)).find? (fun k => 10 ^ k % den == 0)

/-- JavaScript `Number#toString` for the rationals the rules print.  Integers
and finite decimals render exactly as JavaScript renders them; a
non-terminating decimal cannot arise from the decimal literals and sums the
rules feed into templates, and gets a fraction fallback. -/
def ratToString (q : Rat) : String :=
  if q.den == 1 then intStr q.num
  else
    match decPlaces q.den with
    | some k =>
        let scaled : Nat := q.num.natAbs * 10 ^ k / q.den
        (if q.num < 0 then "-" else "")
          ++ Nat.repr (scaled / 10 ^ k) ++ "." ++ padZeros k (Nat.repr (scaled % 10 ^ k))
    | none => intStr q.num ++ "/" ++ Nat.repr q.den

mutual

/-- JavaScript `String(x)` / template-literal conversion.  Arrays join their
elements with commas (`null`/`undefined` elements become empty), plain
objects render as `[object Object]`. -/
def jsToString : JsVal → String
  | .undefined => "undefined"
  | .null => "null"
  | .bool b => if b then "true" else "false"
  | .num q => ratToString q
  | .str s => s
  | .arr elems => String.intercalate "," (jsToStringElems elems)
  | .obj _ => "[object Object]"

def jsToStringElems : List JsVal → List String
  | [] => []
  | .null :: rest => "" :: jsToStringElems rest
  | .undefined :: rest => "" :: jsToStringElems rest
  | v :: rest => jsToString v :: jsToStringElems rest

end

def digitSpan : List Char → List Char × List Char
  | [] => ([], [])
  | c :: cs =>
      if c.isDigit then
        let (run, rest) := digitSpan cs
        (c :: run, rest)
      else ([], c :: cs)

def digitsToNat (ds : List Char) : Nat :=
  ds.foldl (fun acc c => acc * 10 + (c.toNat - '0'.toNat)) 0

def jsWs (c : Char) : Bool :=
  c == ' ' || c == '\t' || c == '\n' || c == '\r'

def trimWsL : List Char → List Char
  | [] => []
  | c :: cs => if jsWs c then trimWsL cs else c :: cs

/-- The decimal part of a JavaScript string numeric literal:
`digits [. digits] [e|E [+|-] digits]`, where at least one digit appears
around the optional point.  Consumes the whole list or fails. -/
def strDecTail (cs : List Char) : Option Rat :=
  let (intDs, r1) := digitSpan cs
  let (fracDs, r2) :=
    match r1 with
    | '.' :: r => digitSpan r
    | _ => ([], r1)
  if intDs.isEmpty && fracDs.isEmpty then none
  else
    let mant : Int := Int.ofNat (digitsToNat (intDs ++ fracDs))
    let fracLen := fracDs.length
    match r2 with
    | [] => some (mkRat mant (10 ^ fracLen))
    | 'e' :: r3 | 'E' :: r3 =>
        let (negExp, r4) :=
          match r3 with
          | '+' :: r' => (false, r')
          | '-' :: r' => (true, r')
          | _ => (false, r3)
        let (expDs, r5) := digitSpan r4
        if expDs.isEmpty || !r5.isEmpty then none
        else
          let e := digitsToNat expDs
          some (if negExp then mkRat mant (10 ^ fracLen * 10 ^ e)
                else mkRat (mant * Int.ofNat (10 ^ e)) (10 ^ fracLen))
    | _ => none

/-- JavaScript `ToNumber` on a string: trimmed empty input is `0`, otherwise
an optionally signed decimal literal.  `Infinity`, hex/octal/binary forms are
out of range of every rule in the catalog and are modelled as `NaN`
(`none`). -/
def strToNumber (s : String) : Option Rat :=
  match trimWsL (trimWsL s.data).reverse with
  | [] => some 0
  | cs =>
      let cs := cs.reverse
      match cs with
      | '-' :: r => (strDecTail r).map ratNeg
      | '+' :: r => strDecTail r
      | _ => strDecTail cs

/-- JavaScript `ToNumber`; `none` is `NaN`.  An array converts through its
string form; a plain object converts through `"[object Object]"`, which is
`NaN`. -/
def jsToNumber : JsVal → Option Rat
  | .num q => some q
  | .bool b => some (if b then 1 else 0)
  | .null => some 0
  | .undefined => none
  | .str s => strToNumber s
  | .arr elems => strToNumber (jsToString (.arr elems))
  | .obj _ => none

/-- JavaScript subtraction; `none` is `NaN`. -/
def jsSub (a b : JsVal) : Option Rat := do
  let x ← jsToNumber a
  let y ← jsToNumber b
  return ratSub x y

/-- `x < q` for a numeric literal `q`; `NaN` compares false. -/
def jsLtNum (a : JsVal) (q : Rat) : Bool :=
  match jsToNumber a with
  | some x => decide (x < q)
  | none => false

/-- `x > q` for a numeric literal `q`; `NaN` compares false. -/
def jsGtNum (a : JsVal) (q : Rat) : Bool :=
  match jsToNumber a with
  | some x => decide (x > q)
  | none => false

/-- `x <= q` for a numeric literal `q`; `NaN` compares false. -/
def jsLeNum (a : JsVal) (q : Rat) : Bool :=
  match jsToNumber a with
  | some x => decide (x ≤ q)
  | none => false

/-- Relational `a < b` between two runtime values: two strings compare
lexicographically, anything else numerically, with `NaN` comparing false. -/
def jsLtVal (a b : JsVal) : Bool :=
  match a, b with
  | .str x, .str y => decide (x < y)
  | _, _ =>
      match jsToNumber a, jsToNumber b with
      | some x, some y => decide (x < y)
      | _, _ => false

/-- `Number#toFixed(2)`: round half away from zero at two decimals (the
`toFixed` spec picks the larger candidate on ties), rendered with exactly two
decimals. -/
def toFixed2 (q : Rat) : String :=
  let n : Nat := (ratFloor (ratAdd (ratMul (ratAbs q) (mkRat 100 1)) (mkRat 1 2))).toNat
  (if q < 0 then "-" else "") ++ Nat.repr (n / 100) ++ "." ++ padZeros 2 (Nat.repr (n % 100))

/-- JavaScript `+` at the ad-pod duration fold: numeric for numeric-like
operands, string concatenation when either side's primitive is a string
(arrays and objects stringify).  An `undefined` operand would give `NaN`, but
the fold only ever adds truthy values to a numeric or string accumulator. -/
def jsAdd (a b : JsVal) : JsVal :=
  match a, b with
  | .num x, .num y => .num (ratAdd x y)
  | .num x, .bool c => .num (ratAdd x (if c then 1 else 0))
  | .num x, .null => .num x
  | .bool c, .num y => .num (ratAdd (if c then 1 else 0) y)
  | .null, .num y => .num y
  | .bool c, .bool d => .num (ratAdd (if c then 1 else 0) (if d then 1 else 0))
  | .bool c, .null => .num (if c then 1 else 0)
  | .null, .bool d => .num (if d then 1 else 0)
  | .null, .null => .num 0
  | x, y => .str (jsToString x ++ jsToString y)

/-! ### String searching -/

def strDropPre (pre : String) (s : String) : Option (List Char) :=
  if pre.data.isPrefixOf s.data then some (s.data.drop pre.data.length) else none

def isInfixList (needle : List Char) : List Char → Bool
  | [] => needle.isEmpty
  | c :: cs => needle.isPrefixOf (c :: cs) || isInfixList needle cs

/-- JavaScript `String#includes` with a string argument. -/
def strContainsStr (hay needle : String) : Bool :=
  isInfixList needle.data hay.data

def strContainsChar (hay : String) (c : Char) : Bool :=
  hay.data.contains c

def strEndsWith (hay suffixStr : String) : Bool :=
  suffixStr.data.isSuffixOf hay.data

def splitOnChar (sep : Char) : List Char → List (List Char)
  | [] => [[]]
  | c :: cs =>
      let r := splitOnChar sep cs
      if c == sep then [] :: r
      else
        match r with
        | [] => [[c]]
        | h :: t => (c :: h) :: t

/-! ### The regular expressions of the helper functions -/

/-- `\w` of the macro pattern: ASCII letters, digits, underscore. -/
def wordChar (c : Char) : Bool :=
  c.isAlphanum || c == '_'

def wordSpan : List Char → List Char × List Char
  | [] => ([], [])
  | c :: cs =>
      if wordChar c then
        let (run, rest) := wordSpan cs
        (c :: run, rest)
      else ([], c :: cs)

/-- Global scan of `/\[[\w_]+\]|\{[\w_]+\}/g`: at each position try a
bracketed or braced word run; a match is consumed whole, a failed attempt
advances one character. -/
def scanMacrosF : Nat → List Char → List String
  | 0, _ => []
  | _, [] => []
  | fuel + 1, c :: cs =>
      if c == '[' || c == '\x7b' then
        match wordSpan cs with
        | ([], _) => scanMacrosF fuel cs
        | (run, rest) =>
            let close : Char := if c == '[' then ']' else '\x7d'
            match rest with
            | d :: rest2 =>
                if d == close then (⟨c :: (run ++ [d])⟩ : String) :: scanMacrosF fuel rest2
                else scanMacrosF fuel cs
            | [] => scanMacrosF fuel cs
      else scanMacrosF fuel cs

def scanMacros (text : String) : List String :=
  scanMacrosF (text.data.length + 1) text.data

/-- `containsMacros` from the source: `/\[[\w_]+\]|\{[\w_]+\}/g.test(text)`.
The pattern object is created afresh on every call, so the global flag
carries no state between calls. -/
def containsMacros (text : String) : Bool :=
  !(scanMacros text).isEmpty

/-- `isTruncatedIP`: ends with `.0`, or contains `xxx` or `***`. -/
def isTruncatedIP (ip : String) : Bool :=
  strEndsWith ip ".0" || strContainsStr ip "xxx" || strContainsStr ip "***"

/-- `isTruncatedIPv6`: contains `::` and is shorter than 15 characters. -/
def isTruncatedIPv6 (ipv6 : String) : Bool :=
  strContainsStr ipv6 "::" && decide (ipv6.length < 15)

/-- One octet of the `isValidIPv4` regex:
`25[0-5] | 2[0-4][0-9] | [01]?[0-9][0-9]?`, consuming the whole group. -/
def ipv4Octet : List Char → Bool
  | [a] => a.isDigit
  | [a, b] => a.isDigit && b.isDigit
  | [a, b, c] =>
      (a == '2' && b == '5' && '0' ≤ c && c ≤ '5')
        || (a == '2' && '0' ≤ b && b ≤ '4' && c.isDigit)
        || ((a == '0' || a == '1') && b.isDigit && c.isDigit)
  | _ => false

/-- `isValidIPv4`: four dot-separated octet groups (anchored, so exactly
four). -/
def isValidIPv4 (ip : String) : Bool :=
  let parts := splitOnChar '.' ip.data
  parts.length == 4 && parts.all ipv4Octet

def hexDigit (c : Char) : Bool :=
  c.isDigit || ('a' ≤ c && c ≤ 'f') || ('A' ≤ c && c ≤ 'F')

/-- `isValidIPv6`: exactly eight colon-separated groups of one to four hex
digits. -/
def isValidIPv6 (ip : String) : Bool :=
  let parts := splitOnChar ':' ip.data
  parts.length == 8 && parts.all (fun g => decide (1 ≤ g.length) && decide (g.length ≤ 4) && g.all hexDigit)

def schemeChar (c : Char) : Bool :=
  c.isAlphanum || c == '+' || c == '-' || c == '.'

/-- Model of `new URL(x)` acceptance: an absolute URL, i.e. an alphabetic
scheme followed by `:`, with the special `http`/`https` schemes additionally
requiring `//` and a nonempty host.  This covers every store/page URL the
rule catalog distinguishes. -/
def canParseURL (s : String) : Bool :=
  let (scheme, rest) := s.data.span (fun c => c != ':')
  match rest with
  | ':' :: after =>
      (match scheme with
       | [] => false
       | c :: cs => c.isAlpha && cs.all schemeChar)
        && (if scheme = "http".data || scheme = "https".data then
              match after with
              | '/' :: '/' :: h :: _ => h != '/'
              | _ => false
            else true)
  | _ => false

/-! ### JSON.stringify -/

def hexChar (n : Nat) : Char :=
  if n < 10 then Char.ofNat ('0'.toNat + n) else Char.ofNat ('a'.toNat + n - 10)

def quoteJsonChar (c : Char) : String :=
  if c == '"' then "\\\""
  else if c == '\\' then "\\\\"
  else if c == '\n' then "\\n"
  else if c == '\r' then "\\r"
  else if c == '\t' then "\\t"
  else if c == '\x08' then "\\b"
  else if c == '\x0c' then "\\f"
  else if c.toNat < 32 then "\\u00" ++ ⟨[hexChar (c.toNat / 16), hexChar (c.toNat % 16)]⟩
  else c.toString

def quoteJson (s : String) : String :=
  "\"" ++ String.join (s.data.map quoteJsonChar) ++ "\""

mutual

/-- `JSON.stringify` on parsed payloads (which contain no `undefined`).  An
`undefined` in array position would stringify to `null`. -/
def jsonStringify : JsVal → String
  | .undefined => "null"
  | .null => "null"
  | .bool b => if b then "true" else "false"
  | .num q => ratToString q
  | .str s => quoteJson s
  | .arr elems => "[" ++ String.intercalate "," (jsonStringifyElems elems) ++ "]"
  | .obj fields => "\x7b" ++ String.intercalate "," (jsonStringifyFields fields) ++ "\x7d"

def jsonStringifyElems : List JsVal → List String
  | [] => []
  | v :: rest => jsonStringify v :: jsonStringifyElems rest

def jsonStringifyFields : List (String × JsVal) → List String
  | [] => []
  | (k, v) :: rest => (quoteJson k ++ ":" ++ jsonStringify v) :: jsonStringifyFields rest

end

/-! ### JSON.parse -/

def escChar : Char → Option Char
  | '"' => some '"'
  | '\\' => some '\\'
  | '/' => some '/'
  | 'b' => some '\x08'
  | 'f' => some '\x0c'
  | 'n' => some '\n'
  | 'r' => some '\r'
  | 't' => some '\t'
  | _ => none

def hexNibble (c : Char) : Option Nat :=
  let n := c.toNat
  if 48 ≤ n && n ≤ 57 then some (n - 48)
  else if 97 ≤ n && n ≤ 102 then some (n - 87)
  else if 65 ≤ n && n ≤ 70 then some (n - 55)
  else none

/-- Body of a JSON string after the opening quote.  Raw control characters
are rejected; `\uXXXX` maps through `Char.ofNat` (a lone surrogate, invalid
as a `Char`, degrades to NUL — no rule inspects such strings). -/
def jsonStrTail (acc : List Char) : List Char → Option (String × List Char)
  | [] => none
  | '"' :: cs => some (⟨acc.reverse⟩, cs)
  | '\\' :: 'u' :: a :: b :: c :: d :: cs =>
      match hexNibble a, hexNibble b, hexNibble c, hexNibble d with
      | some va, some vb, some vc, some vd =>
          jsonStrTail (Char.ofNat (va * 4096 + vb * 256 + vc * 16 + vd) :: acc) cs
      | _, _, _, _ => none
  | '\\' :: e :: cs => do
      let ch ← escChar e
      jsonStrTail (ch :: acc) cs
  | c :: cs => if c.toNat < 32 then none else jsonStrTail (c :: acc) cs

/-- A JSON number: strict grammar (`-? (0|[1-9][0-9]*) (\.[0-9]+)?
([eE][+-]?[0-9]+)?`), valued exactly as a rational. -/
def jsonNum (cs : List Char) : Option (Rat × List Char) :=
  let (neg, cs1) :=
    match cs with
    | '-' :: r => (true, r)
    | _ => (false, cs)
  match cs1 with
  | [] => none
  | c :: rest =>
      if !c.isDigit then none
      else
        let (intDs, r1) := if c == '0' then ([c], rest) else digitSpan (c :: rest)
        let (fracDs, r2) :=
          match r1 with
          | '.' :: r => digitSpan r
          | _ => ([], r1)
        if (match r1 with | '.' :: _ => fracDs.isEmpty | _ => false) then none
        else
          let m : Int := Int.ofNat (digitsToNat (intDs ++ fracDs))
          let mant : Int := if neg then -m else m
          let fracLen := fracDs.length
          match r2 with
          | 'e' :: r3 | 'E' :: r3 =>
              let (negExp, r4) :=
                match r3 with
                | '+' :: r' => (false, r')
                | '-' :: r' => (true, r')
                | _ => (false, r3)
              let (expDs, r5) := digitSpan r4
              if expDs.isEmpty then none
              else
                let e := digitsToNat expDs
                some ((if negExp then mkRat mant (10 ^ fracLen * 10 ^ e)
                       else mkRat (mant * Int.ofNat (10 ^ e)) (10 ^ fracLen)), r5)
          | _ => some (mkRat mant (10 ^ fracLen), r2)

/-- A literal JSON keyword (`null`, `true`, `false`). -/
def jsonKeyword (w : String) (v : JsVal) (cs : List Char) : Option (JsVal × List Char) :=
  if w.data.isPrefixOf cs then some (v, cs.drop w.data.length) else none

/-- Duplicate keys in a JSON object: a later member overwrites the value but
keeps the first occurrence's position, as property assignment does. -/
def objUpsert : List (String × JsVal) → String → JsVal → List (String × JsVal)
  | [], k, v => [(k, v)]
  | (k', v') :: rest, k, v =>
      if k' == k then (k', v) :: rest else (k', v') :: objUpsert rest k v

mutual

def jsonParseVal : Nat → List Char → Option (JsVal × List Char)
  | 0, _ => none
  | fuel + 1, cs =>
      match trimWsL cs with
      | '"' :: r => (jsonStrTail [] r).map (fun (s, r') => (.str s, r'))
      | cs1@('n' :: _) => jsonKeyword "null" .null cs1
      | cs1@('t' :: _) => jsonKeyword "true" (.bool true) cs1
      | cs1@('f' :: _) => jsonKeyword "false" (.bool false) cs1
      | '[' :: r =>
          (match trimWsL r with
           | ']' :: r2 => some (.arr [], r2)
           | r1 => (jsonParseArrTail fuel r1).map (fun (vs, r') => (.arr vs, r')))
      | '\x7b' :: r =>
          (match trimWsL r with
           | '\x7d' :: r2 => some (.obj [], r2)
           | r1 =>
               (jsonParseObjTail fuel r1).map
                 (fun (pairs, r') =>
                   (.obj (pairs.foldl (fun acc kv => objUpsert acc kv.1 kv.2) []), r')))
      | cs' => (jsonNum cs').map (fun (q, r') => (.num q, r'))

def jsonParseArrTail : Nat → List Char → Option (List JsVal × List Char)
  | 0, _ => none
  | fuel + 1, cs => do
      let (v, r) ← jsonParseVal fuel cs
      match trimWsL r with
      | ',' :: r2 => do
          let (vs, r3) ← jsonParseArrTail fuel r2
          return (v :: vs, r3)
      | ']' :: r2 => return ([v], r2)
      | _ => none

def jsonParseObjTail : Nat → List Char → Option (List (String × JsVal) × List Char)
  | 0, _ => none
  | fuel + 1, cs =>
      match trimWsL cs with
      | '"' :: r => do
          let (k, r1) ← jsonStrTail [] r
          match trimWsL r1 with
          | ':' :: r2 => do
              let (v, r3) ← jsonParseVal fuel r2
              match trimWsL r3 with
              | ',' :: r4 => do
                  let (pairs, r5) ← jsonParseObjTail fuel r4
                  return ((k, v) :: pairs, r5)
              | '\x7d' :: r4 => return ([(k, v)], r4)
              | _ => none
          | _ => none
      | _ => none

end

/-- `JSON.parse`: one complete JSON value with surrounding whitespace. -/
def parseJson (s : String) : Option JsVal :=
  match jsonParseVal (4 * s.data.length + 16) s.data with
  | some (v, rest) => if trimWsL rest = [] then some v else none
  | none => none

end BidVal

namespace BidVal

/-! ### The result data model -/

inductive Severity where
  | error
  | warning
  | info
deriving Repr, DecidableEq

structure ValidationIssue where
  id : String
  severity : Severity
  fieldPath : String
  message : String
  actualValue : Option JsVal
  expectedValue : Option String
deriving Repr

structure AdPodDetails where
  slots : Nat
  totalDuration : JsVal
deriving Repr

structure DetectedCharacteristics where
  primaryType : String
  mediaFormats : Option (List JsVal)
  platform : Option String
  deviceInfo : Option String
  privacySignals : List String
  isAdPod : Option Bool
  adPodDetails : Option AdPodDetails
deriving Repr

structure BidRequestValidationResult where
  detectedCharacteristics : DetectedCharacteristics
  issues : List ValidationIssue
  isValid : Bool
deriving Repr

/-! ### Pattern Registry: store URL patterns -/

def upperOrDigit (c : Char) : Bool :=
  ('A' ≤ c && c ≤ 'Z') || c.isDigit

def lowerOrDigit (c : Char) : Bool :=
  ('a' ≤ c && c ≤ 'z') || c.isDigit

def androidBundleChar (c : Char) : Bool :=
  c.isAlphanum || c == '.' || c == '_'

def psProductChar (c : Char) : Bool :=
  upperOrDigit c || c == '_' || c == '-'

/-- Anchored `^PRE(CLS+)$`: strip the literal, the remainder is the capture
and must be a nonempty run of the class. -/
def litCapture (pre : String) (cls : Char → Bool) (s : String) : Option String :=
  match strDropPre pre s with
  | some rest => if !rest.isEmpty && rest.all cls then some ⟨rest⟩ else none
  | none => none

/-- One backtracking step of `.*SEP(CLS+)$`: does `sep` occur at offset `i`
with a nonempty all-class remainder after it? -/
def capAt (sep : List Char) (cls : Char → Bool) (rest : List Char) (i : Nat) : Option String :=
  let tail := rest.drop i
  if sep.isPrefixOf tail then
    let cap := tail.drop sep.length
    if !cap.isEmpty && cap.all cls then some ⟨cap⟩ else none
  else none

/-- Greedy `.*SEP(CLS+)$`: a leading greedy `.*` makes the engine take the
last offset at which `sep` is followed by a valid capture. -/
def lastSepCapture (sep : List Char) (cls : Char → Bool) (rest : List Char) :
    Option (Nat × String) :=
  (List.range (rest.length + 1)).foldl
    (fun acc i =>
      match capAt sep cls rest i with
      | some cap => some (i, cap)
      | none => acc)
    none

/-- `/^https:\/\/apps\.apple\.com\/.*\/app\/.*\/id(\d+)$/` -/
def iosPattern1 (s : String) : Option String :=
  match strDropPre "https://apps.apple.com/" s with
  | some rest =>
      match lastSepCapture "/id".data Char.isDigit rest with
      | some (i, cap) => if isInfixList "/app/".data (rest.take i) then some cap else none
      | none => none
  | none => none

/-- `/^https:\/\/apps\.apple\.com\/app\/id(\d+)$/` -/
def iosPattern2 (s : String) : Option String :=
  litCapture "https://apps.apple.com/app/id" Char.isDigit s

/-- `/^https:\/\/apps\.apple\.com\/us\/app\/id(\d+)$/` -/
def iosPattern3 (s : String) : Option String :=
  litCapture "https://apps.apple.com/us/app/id" Char.isDigit s

/-- `/^https:\/\/play\.google\.com\/store\/apps\/details\?id=([a-zA-Z0-9._]+)$/` -/
def androidPattern1 (s : String) : Option String :=
  litCapture "https://play.google.com/store/apps/details?id=" androidBundleChar s

/-- `/^https:\/\/channelstore\.roku\.com\/details\/([a-zA-Z0-9]+)\/.*$/` -/
def rokuPattern1 (s : String) : Option String :=
  match strDropPre "https://channelstore.roku.com/details/" s with
  | some rest =>
      let (run, r2) := rest.span (fun c => c.isAlphanum)
      match r2 with
      | '/' :: _ => if run.isEmpty then none else some ⟨run⟩
      | _ => none
  | none => none

/-- `/^https:\/\/channelstore\.roku\.com\/details\/(\d+)\/?$/` -/
def rokuPattern2 (s : String) : Option String :=
  match strDropPre "https://channelstore.roku.com/details/" s with
  | some rest =>
      let (ds, r2) := digitSpan rest
      if ds.isEmpty then none
      else if r2 = [] || r2 = ['/'] then some ⟨ds⟩ else none
  | none => none

/-- `/^https:\/\/www\.amazon\.com\/.*\/dp\/([A-Z0-9]+)$/` -/
def amazonPattern1 (s : String) : Option String :=
  match strDropPre "https://www.amazon.com/" s with
  | some rest => (lastSepCapture "/dp/".data upperOrDigit rest).map (fun p => p.2)
  | none => none

/-- `/^https:\/\/www\.amazon\.com\/dp\/([A-Z0-9]+)$/` -/
def amazonPattern2 (s : String) : Option String :=
  litCapture "https://www.amazon.com/dp/" upperOrDigit s

/-- `/^https:\/\/www\.microsoft\.com\/.*\/p\/.*\/([a-z0-9]+)$/` -/
def microsoftPattern1 (s : String) : Option String :=
  match strDropPre "https://www.microsoft.com/" s with
  | some rest =>
      match lastSepCapture "/".data lowerOrDigit rest with
      | some (i, cap) => if isInfixList "/p/".data (rest.take i) then some cap else none
      | none => none
  | none => none

/-- `/^https:\/\/www\.microsoft\.com\/p\/.*\/([a-z0-9]+)$/` -/
def microsoftPattern2 (s : String) : Option String :=
  match strDropPre "https://www.microsoft.com/p/" s with
  | some rest => (lastSepCapture "/".data lowerOrDigit rest).map (fun p => p.2)
  | none => none

/-- `/^https:\/\/www\.samsung\.com\/us\/appstore\/app\/(G\d+)$/` -/
def samsungPattern1 (s : String) : Option String :=
  match strDropPre "https://www.samsung.com/us/appstore/app/" s with
  | some ('G' :: ds) => if !ds.isEmpty && ds.all Char.isDigit then some ⟨'G' :: ds⟩ else none
  | _ => none

/-- `/^https:\/\/us\.lgappstv\.com\/main\/tvapp\/detail\?appId=(\d+)$/` -/
def lgPattern1 (s : String) : Option String :=
  litCapture "https://us.lgappstv.com/main/tvapp/detail?appId=" Char.isDigit s

/-- `/^https:\/\/fr\.lgappstv\.com\/main\/tvapp\/detail\?appId=(\d+)$/` -/
def lgPattern2 (s : String) : Option String :=
  litCapture "https://fr.lgappstv.com/main/tvapp/detail?appId=" Char.isDigit s

/-- `/^https:\/\/store\.playstation\.com\/en-us\/product\/([A-Z0-9_-]+)$/` -/
def playstationPattern1 (s : String) : Option String :=
  litCapture "https://store.playstation.com/en-us/product/" psProductChar s

/-- `/^https:\/\/www\.vizio\.com\/smart-tv-apps\?appName=([a-zA-Z0-9]+)&appId=(vizio\.[a-zA-Z0-9]+)$/`
(`match[1]` is the `appName` group). -/
def vizioPattern1 (s : String) : Option String :=
  match strDropPre "https://www.vizio.com/smart-tv-apps?appName=" s with
  | some rest =>
      let (run, r2) := rest.span (fun c => c.isAlphanum)
      if run.isEmpty then none
      else
        match strDropPre "&appId=vizio." ⟨r2⟩ with
        | some tail => if !tail.isEmpty && tail.all (fun c => c.isAlphanum) then some ⟨run⟩ else none
        | none => none
  | none => none

/-- `/^https:\/\/www\.zeasn\.tv\/whaleeco\/appstore\/detail\?appid=(\d+)$/` -/
def philipsPattern1 (s : String) : Option String :=
  litCapture "https://www.zeasn.tv/whaleeco/appstore/detail?appid=" Char.isDigit s

/-- `/^https:\/\/appgallery\.huawei\.com\/#\/app\/(C\d+)$/` -/
def huaweiPattern1 (s : String) : Option String :=
  match strDropPre "https://appgallery.huawei.com/#/app/" s with
  | some ('C' :: ds) => if !ds.isEmpty && ds.all Char.isDigit then some ⟨'C' :: ds⟩ else none
  | _ => none

/-- One platform entry of `STORE_URL_PATTERNS`: the `Object.entries` key
upper-cased (as the dynamic issue ids use it), the URL patterns in source
order, the bundle-format test with its printable pattern source, and the
display platform name. -/
structure StoreEntry where
  keyUpper : String
  patterns : List (String → Option String)
  bundleOk : String → Bool
  bundleSource : String
  platform : String

def allDigitsBundle (b : String) : Bool :=
  !b.isEmpty && b.data.all Char.isDigit

/-- `STORE_URL_PATTERNS`, in the object's insertion order (the order
`Object.entries` iterates). -/
def STORE_URL_PATTERNS : List StoreEntry :=
  [⟨"IOS", [iosPattern1, iosPattern2, iosPattern3], allDigitsBundle, "^\\d+$", "iOS/tvOS"⟩,
   ⟨"ANDROID", [androidPattern1],
     (fun b => !b.isEmpty && b.data.all androidBundleChar), "^[a-zA-Z0-9._]+$",
     "Android/AndroidTV"⟩,
   ⟨"ROKU", [rokuPattern1, rokuPattern2], allDigitsBundle, "^\\d+$", "Roku OS"⟩,
   ⟨"AMAZON", [amazonPattern1, amazonPattern2],
     (fun b => !b.isEmpty && b.data.all upperOrDigit), "^[A-Z0-9]+$", "Fire OS"⟩,
   ⟨"MICROSOFT", [microsoftPattern1, microsoftPattern2],
     (fun b => !b.isEmpty && b.data.all lowerOrDigit), "^[a-z0-9]+$", "Microsoft"⟩,
   ⟨"SAMSUNG", [samsungPattern1],
     (fun b =>
       match b.data with
       | 'G' :: ds => !ds.isEmpty && ds.all Char.isDigit
       | _ => false), "^G\\d+$", "Tizen"⟩,
   ⟨"LG", [lgPattern1, lgPattern2], allDigitsBundle, "^\\d+$", "WebOS"⟩,
   ⟨"PLAYSTATION", [playstationPattern1],
     (fun b => !b.isEmpty && b.data.all psProductChar), "^[A-Z0-9_-]+$", "Orbis OS"⟩,
   ⟨"VIZIO", [vizioPattern1],
     (fun b =>
       match strDropPre "vizio." b with
       | some tail => !tail.isEmpty && tail.all (fun c => c.isAlphanum)
       | none => false), "^vizio\\.[a-zA-Z0-9]+$", "SmartCast"⟩,
   ⟨"PHILIPS", [philipsPattern1], allDigitsBundle, "^\\d+$", "AndroidTV"⟩,
   ⟨"HUAWEI", [huaweiPattern1],
     (fun b =>
       match b.data with
       | 'C' :: ds => !ds.isEmpty && ds.all Char.isDigit
       | _ => false), "^C\\d+$", "HarmonyOS"⟩]

/-! ### Pattern Registry: data centers and country continents -/

structure DataCenter where
  id : Nat
  name : String
  technical : String
  continent : Option String
  city : String
deriving Repr, DecidableEq

def DATA_CENTERS : List DataCenter :=
  [⟨2, "Telecity", "", none, ""⟩,
   ⟨3, "Equinix", "eqx", some "Europe", "St Denis, Paris Area, FR"⟩,
   ⟨4, "Interxion5", "itx5", some "Europe", "Velizy, Paris Area, FR"⟩,
   ⟨5, "Terremark", "tmk", some "Americas", "Miami, Florida, US"⟩,
   ⟨6, "Interxion4", "itx4", some "Europe", "Velizy, Paris Area, FR"⟩,
   ⟨7, "China", "", some "Asia", ""⟩,
   ⟨8, "Apac", "sgp", some "Asia", "Singapore, SG"⟩,
   ⟨10, "USW1", "usw1", some "Americas", "Los Angeles, CA, US"⟩,
   ⟨11, "EUW1", "euw1", some "Europe", "Amsterdam, NL"⟩,
   ⟨12, "USE1", "use1", some "Americas", "Washington, US"⟩,
   ⟨13, "APAC1", "apac1", some "Asia", "Singapore, SG"⟩,
   ⟨14, "EUW2", "euw2", some "Europe", "Gravelines, hauts-de-france, FR"⟩,
   ⟨15, "EUW3-DATA", "euw3-data", some "Europe", ""⟩,
   ⟨16, "USE2", "use2", some "Americas", "Warrenton, VA, US"⟩]

def COUNTRY_CONTINENT_MAP : List (String × String) := [
  ("ASM", "Oceania"), ("BHS", "Americas"), ("BHR", "Asia"), ("BEL", "Europe"),
  ("BMU", "Americas"), ("BOL", "Americas"), ("BRA", "Americas"), ("BRN", "Asia"),
  ("BGR", "Europe"), ("TCD", "Africa"), ("CHL", "Americas"), ("CHN", "Asia"),
  ("COL", "Americas"), ("COM", "Africa"), ("COK", "Oceania"), ("CZE", "Europe"),
  ("DJI", "Africa"), ("DMA", "Americas"), ("DOM", "Americas"), ("EGY", "Africa"),
  ("SLV", "Americas"), ("FJI", "Oceania"), ("GUF", "Americas"), ("DEU", "Europe"),
  ("GHA", "Africa"), ("GRC", "Europe"), ("GRD", "Americas"), ("GUM", "Oceania"),
  ("HTI", "Americas"), ("HND", "Americas"), ("IND", "Asia"), ("IDN", "Asia"),
  ("IRN", "Asia"), ("ISR", "Asia"), ("JPN", "Asia"), ("KWT", "Asia"),
  ("LSO", "Africa"), ("LIE", "Europe"), ("LTU", "Europe"), ("LUX", "Europe"),
  ("MWI", "Africa"), ("MDV", "Asia"), ("MHL", "Oceania"), ("MTQ", "Americas"),
  ("MRT", "Africa"), ("MEX", "Americas"), ("FSM", "Oceania"), ("MCO", "Europe"),
  ("MNG", "Asia"), ("MOZ", "Africa"), ("NRU", "Oceania"), ("NCL", "Oceania"),
  ("NGA", "Africa"), ("PAK", "Asia"), ("PER", "Americas"), ("PRT", "Europe"),
  ("PRI", "Americas"), ("QAT", "Asia"), ("REU", "Africa"), ("KNA", "Americas"),
  ("VCT", "Americas"), ("STP", "Africa"), ("SEN", "Africa"), ("SYC", "Africa"),
  ("SGP", "Asia"), ("SVN", "Europe"), ("ZAF", "Africa"), ("SDN", "Africa"),
  ("SWZ", "Africa"), ("CHE", "Europe"), ("TWN", "Asia"), ("TON", "Oceania"),
  ("TUR", "Asia"), ("UGA", "Africa"), ("GBR", "Europe"), ("UZB", "Asia"),
  ("VIR", "Americas"), ("ZMB", "Africa"), ("ZWE", "Africa"), ("AFG", "Asia"),
  ("ALB", "Europe"), ("AND", "Europe"), ("AGO", "Africa"), ("AIA", "Americas"),
  ("ARM", "Asia"), ("AUT", "Europe"), ("BTN", "Asia"), ("BFA", "Africa"),
  ("BDI", "Africa"), ("CAN", "Americas"), ("CPV", "Africa"), ("CAF", "Africa"),
  ("COD", "Africa"), ("CRI", "Americas"), ("CUB", "Americas"), ("CYP", "Asia"),
  ("DNK", "Europe"), ("ECU", "Americas"), ("ETH", "Africa"), ("FLK", "Americas"),
  ("FRO", "Europe"), ("FIN", "Europe"), ("GMB", "Africa"), ("GEO", "Asia"),
  ("GNB", "Africa"), ("GUY", "Americas"), ("ISL", "Europe"), ("JOR", "Asia"),
  ("KAZ", "Asia"), ("PRK", "Asia"), ("KOR", "Asia"), ("KGZ", "Asia"),
  ("LAO", "Asia"), ("LVA", "Europe"), ("LBN", "Asia"), ("LBY", "Africa"),
  ("MKD", "Europe"), ("MYS", "Asia"), ("MUS", "Africa"), ("MMR", "Asia"),
  ("NER", "Africa"), ("NIU", "Oceania"), ("OMN", "Asia"), ("PLW", "Oceania"),
  ("PNG", "Oceania"), ("PRY", "Americas"), ("PHL", "Asia"), ("RUS", "Asia"),
  ("RWA", "Africa"), ("LCA", "Americas"), ("SMR", "Europe"), ("SAU", "Asia"),
  ("SLE", "Africa"), ("SUR", "Americas"), ("SWE", "Europe"), ("TJK", "Asia"),
  ("TZA", "Africa"), ("TGO", "Africa"), ("TTO", "Americas"), ("TKM", "Asia"),
  ("TUV", "Oceania"), ("USA", "Americas"), ("VUT", "Oceania"), ("VEN", "Americas"),
  ("YEM", "Asia"), ("DZA", "Africa"), ("ATG", "Americas"), ("ARG", "Americas"),
  ("ABW", "Americas"), ("AUS", "Oceania"), ("AZE", "Asia"), ("BGD", "Asia"),
  ("BRB", "Americas"), ("BLR", "Europe"), ("BLZ", "Americas"), ("BEN", "Africa"),
  ("BIH", "Europe"), ("BWA", "Africa"), ("KHM", "Asia"), ("CMR", "Africa"),
  ("CYM", "Americas"), ("CXR", "Asia"), ("COG", "Africa"), ("GNQ", "Africa"),
  ("ERI", "Africa"), ("EST", "Europe"), ("FRA", "Europe"), ("PYF", "Oceania"),
  ("GAB", "Africa"), ("GIB", "Europe"), ("GRL", "Americas"), ("GLP", "Americas"),
  ("GTM", "Americas"), ("GIN", "Africa"), ("HUN", "Europe"), ("IRQ", "Asia"),
  ("IRL", "Europe"), ("ITA", "Europe"), ("JAM", "Americas"), ("KEN", "Africa"),
  ("KIR", "Oceania"), ("LBR", "Africa"), ("MDG", "Africa"), ("MLI", "Africa"),
  ("MLT", "Europe"), ("MYT", "Africa"), ("MDA", "Europe"), ("MSR", "Americas"),
  ("MAR", "Africa"), ("NAM", "Africa"), ("NPL", "Asia"), ("NLD", "Europe"),
  ("NIC", "Americas"), ("NFK", "Oceania"), ("MNP", "Oceania"), ("NOR", "Europe"),
  ("PAN", "Americas"), ("POL", "Europe"), ("ROU", "Europe"), ("WSM", "Oceania"),
  ("SVK", "Europe"), ("SLB", "Oceania"), ("SOM", "Africa"), ("ESP", "Europe"),
  ("LKA", "Asia"), ("SYR", "Asia"), ("THA", "Asia"), ("TUN", "Africa"),
  ("TCA", "Americas"), ("UKR", "Europe"), ("ARE", "Asia"), ("URY", "Americas"),
  ("VNM", "Asia"), ("VGB", "Americas"), ("WLF", "Oceania"), ("CIV", "Africa"),
  ("HRV", "Europe"), ("VAT", "Europe"), ("NZL", "Oceania"), ("SHN", "Africa"),
  ("SPM", "Americas"), ("SJM", "Europe"), ("TKL", "Oceania"), ("CCK", "Asia"),
  ("PCN", "Oceania"), ("ESH", "Africa")]

end BidVal

namespace BidVal

/-! ### Characteristic Detector -/

def JsVal.isArr : JsVal → Bool
  | .arr _ => true
  | _ => false

/-- The element list of a value the code has already checked with
`Array.isArray`. -/
def JsVal.elemsOf : JsVal → List JsVal
  | .arr elems => elems
  | _ => []

/-- The underlying string of a value the code has already checked with
`typeof x === 'string'`. -/
def JsVal.strOf : JsVal → String
  | .str s => s
  | _ => ""

def condIssue (b : Bool) (i : ValidationIssue) : List ValidationIssue :=
  if b then [i] else []

/-- Spread `...x` inside an array literal or push: iterable arrays spread to
their elements and strings to their characters; spreading any other value
throws a `TypeError`. -/
def spreadElems : JsVal → Except JsError (List JsVal)
  | .arr elems => .ok elems
  | .str s => .ok (s.data.map (fun c => .str c.toString))
  | _ => .error .typeError

/-- `SameValueZero`, the equality `new Set` deduplicates by: value equality
on primitives; distinct aggregates in one parsed payload are distinct
references, hence never equal. -/
def sameValueZero (a b : JsVal) : Bool :=
  match a, b with
  | .arr _, _ => false
  | .obj _, _ => false
  | _, .arr _ => false
  | _, .obj _ => false
  | x, y => jsEq x y

/-- `[...new Set(xs)]`: first occurrences in order. -/
def dedupSVZ (xs : List JsVal) : List JsVal :=
  xs.foldl (fun acc v => if acc.any (fun w => sameValueZero w v) then acc else acc ++ [v]) []

/-- The per-impression body of the detector's format loop: collect format
labels and spread `video.mimes` into the media-format accumulator. -/
def detectImpTypes (imp : JsVal) : Except JsError (List String × List JsVal) :=
  match getF imp "video" with
  | .error e => .error e
  | .ok video =>
  match (if truthy video then
          if truthy (optGet video "mimes") then spreadElems (optGet video "mimes")
          else .ok []
        else .ok [] : Except JsError (List JsVal)) with
  | .error e => .error e
  | .ok formats =>
  .ok ((if truthy video then ["Video"] else [])
      ++ (if truthy (optGet imp "native") then ["Native"] else [])
      ++ (if truthy (optGet imp "banner") then ["Display"] else [])
      ++ (if truthy (optGet imp "audio") then ["Audio"] else []), formats)

def detectTypesLoop : List JsVal → Except JsError (List String × List JsVal)
  | [] => .ok ([], [])
  | imp :: rest => do
      let (t, f) ← detectImpTypes imp
      let (ts, fs) ← detectTypesLoop rest
      return (t ++ ts, f ++ fs)

/-- `imp.video?.podid` truthiness per element (throws on a `null` element,
as `imp.video` does). -/
def podidFlag (imp : JsVal) : Except JsError Bool := do
  let video ← getF imp "video"
  return truthy (optGet video "podid")

/-- `imp` entries whose `imp.video?.poddur` is truthy, mapped to the
durations (`imp.video.poddur || 0` is the truthy duration itself). -/
def poddurValues : List JsVal → Except JsError (List JsVal)
  | [] => .ok []
  | imp :: rest => do
      let video ← getF imp "video"
      let tail ← poddurValues rest
      let dur := optGet video "poddur"
      return (if truthy dur then [dur] else []) ++ tail

/-- `Array#some(imp => imp.video?.podid)`: early exit on the first truthy
element. -/
def somePodid : List JsVal → Except JsError Bool
  | [] => .ok false
  | imp :: rest => do
      let flag ← podidFlag imp
      if flag then return true else somePodid rest

def countPodid : List JsVal → Except JsError Nat
  | [] => .ok 0
  | imp :: rest => do
      let flag ← podidFlag imp
      let n ← countPodid rest
      return (if flag then 1 else 0) + n

def deviceTypeLabel (dt : JsVal) : String :=
  if jsEq dt (.num 1) then "Mobile/Tablet"
  else if jsEq dt (.num 2) then "Desktop"
  else if jsEq dt (.num 5) then "Connected TV"
  else if jsEq dt (.num 6) then "Digital Out-of-Home"
  else if jsEq dt (.num 7) then "Phone"
  else ""

/-- `detectBidRequestCharacteristics`: primary type and media formats from
the impressions, platform from `app`/`site`, a device label, the privacy
signals, and ad-pod details.  Faithful to the source, including the
`TypeError` raised when `imp` is truthy but not an array (`imp.some` is not
a function) and on `null` impression entries. -/
def detectBidRequestCharacteristics (bidRequest : JsVal) :
    Except JsError DetectedCharacteristics :=
  match getF bidRequest "imp" with
  | .error e => .error e
  | .ok impv =>
  match (if truthy impv && impv.isArr then
          match detectTypesLoop impv.elemsOf with
          | .error e => .error e
          | .ok (types, formats) =>
              .ok (if types.length > 0 then String.intercalate ", " types else "Unknown",
                some (dedupSVZ formats))
        else .ok ("Unknown", none) :
      Except JsError (String × Option (List JsVal))) with
  | .error e => .error e
  | .ok (primaryType, mediaFormats) =>
  match getF bidRequest "app" with
  | .error e => .error e
  | .ok app =>
  match getF bidRequest "site" with
  | .error e => .error e
  | .ok site =>
  match getF bidRequest "device" with
  | .error e => .error e
  | .ok device =>
  match getF bidRequest "regs" with
  | .error e => .error e
  | .ok regs =>
  match getF bidRequest "user" with
  | .error e => .error e
  | .ok user =>
  match (if truthy impv then
          match impv with
          | .arr imps =>
              (match somePodid imps with
               | .error e => .error e
               | .ok anyPod =>
                  if anyPod then
                    match countPodid imps with
                    | .error e => .error e
                    | .ok slots =>
                        match poddurValues imps with
                        | .error e => .error e
                        | .ok durs =>
                            .ok (some true,
                              some (AdPodDetails.mk slots (durs.foldl jsAdd (.num 0))))
                  else .ok (none, none))
          | _ => .error .typeError
        else .ok (none, none) :
      Except JsError (Option Bool × Option AdPodDetails)) with
  | .error e => .error e
  | .ok (isAdPod, adPodDetails) =>
  .ok (DetectedCharacteristics.mk primaryType mediaFormats
    (if truthy app then some "Mobile App"
     else if truthy site then some "Website"
     else none)
    (if truthy device then
      some (deviceTypeLabel (optGet device "devicetype")
        ++ (if truthy (optGet device "os") then
              " (" ++ jsToString (optGet device "os") ++ ")"
            else ""))
     else none)
    ((if jsEq (optGet (optGet regs "ext") "gdpr") (.num 1) then ["GDPR Applicable"] else [])
      ++ (if truthy (optGet (optGet user "ext") "consent") then ["TCF String Present"] else [])
      ++ (if truthy (optGet (optGet regs "ext") "us_privacy") then ["CCPA String Present"]
          else [])
      ++ (if truthy (optGet regs "gpp") then ["GPP String Present"] else []))
    isAdPod adPodDetails)

end BidVal

namespace BidVal

/-! ### Core BidRequest validator -/

/-- `validateCoreBidRequest`: request-level presence/shape rules, in the
source's emission order (`EQ-BR-*` generation first, then `Core-BR-*`). -/
def validateCoreBidRequest (bidRequest : JsVal) : Except JsError (List ValidationIssue) := do
  let site ← getF bidRequest "site"
  let app ← getF bidRequest "app"
  let hasSite := truthy site
  let hasApp := truthy app
  let device ← getF bidRequest "device"
  let impv ← getF bidRequest "imp"
  let sourcev ← getF bidRequest "source"
  let user ← getF bidRequest "user"
  let ext ← getF bidRequest "ext"
  let idv ← getF bidRequest "id"
  let atv ← getF bidRequest "at"
  let testv ← getF bidRequest "test"
  let tmax ← getF bidRequest "tmax"
  let partnerIsCalled := optGet ext "partnerIsCalled"
  return (
    condIssue (!hasSite && !hasApp)
      (.mk "EQ-BR-001" .error "BidRequest"
        "BidRequest must contain either a site or an app object" none
        (some "Either site or app object"))
    ++ condIssue (!truthy device)
      (.mk "EQ-BR-002" .error "BidRequest.device"
        "BidRequest must contain a device object" none (some "Device object"))
    ++ condIssue (!truthy impv || !impv.isArr || impv.elemsOf.isEmpty)
      (.mk "EQ-BR-003" .error "BidRequest.imp"
        "BidRequest must contain a non-empty impression array" none
        (some "Non-empty array of impressions"))
    ++ condIssue (!truthy sourcev)
      (.mk "EQ-BR-004" .error "BidRequest.source"
        "BidRequest must contain a source object" none (some "Source object"))
    ++ condIssue (!truthy user)
      (.mk "EQ-BR-005" .error "BidRequest.user"
        "BidRequest must contain a user object" none (some "User object"))
    ++ condIssue (!partnerIsCalled.isUndefined && !jsEq partnerIsCalled (.bool true))
      (.mk "EQ-BR-006" .error "BidRequest.ext.partnerIsCalled"
        "partnerIsCalled must be true when present" (some partnerIsCalled) (some "true"))
    ++ condIssue
      (!truthy idv || !typeofString idv
        || (match idv with | .str s => s.trim == "" | _ => false))
      (.mk "Core-BR-001" .error "BidRequest.id"
        "BidRequest.id must be present and be a non-empty string" (some idv)
        (some "Non-empty string"))
    ++ (if !truthy impv then
          [.mk "Core-BR-002" .error "BidRequest.imp"
            "BidRequest.imp array must be present" none
            (some "Array of impression objects")]
        else
          condIssue (!impv.isArr || impv.elemsOf.isEmpty)
            (.mk "Core-BR-003" .error "BidRequest.imp"
              "BidRequest.imp must be a non-empty array" (some impv)
              (some "Non-empty array")))
    ++ condIssue (atv.isUndefined || !typeofNumber atv)
      (.mk "Core-BR-004" .error "BidRequest.at"
        "BidRequest.at (auction type) must be present and be an integer" (some atv)
        (some "Integer (typically 1 or 2)"))
    ++ condIssue (hasSite && hasApp)
      (.mk "Core-BR-006" .error "BidRequest"
        "BidRequest must not contain both site and app objects"
        (some (.str "Both site and app present")) (some "Either site or app, not both"))
    ++ condIssue (!testv.isUndefined && !jsEq testv (.num 0) && !jsEq testv (.num 1))
      (.mk "Core-BR-007" .warning "BidRequest.test"
        "test should be 0 (production) or 1 (test)" (some testv) (some "0 or 1"))
    ++ condIssue (!truthy tmax || jsLeNum tmax 0)
      (.mk "Core-BR-009" .warning "BidRequest.tmax"
        "tmax (timeout) should be present and greater than 0" (some tmax)
        (some "Positive integer (milliseconds)")))

/-! ### Store URL / bundle cross-validation and the App validator -/

def firstPatternMatch (patterns : List (String → Option String)) (storeUrl : String) :
    Option String :=
  match patterns with
  | [] => none
  | p :: rest =>
      match p storeUrl with
      | some cap => some cap
      | none => firstPatternMatch rest storeUrl

/-- The first (platform, capture) pair whose URL pattern matches; platforms
iterate in the registry's insertion order and stop at the first match. -/
def findStoreMatch (storeUrl : String) : List StoreEntry → Option (StoreEntry × String)
  | [] => none
  | entry :: rest =>
      match firstPatternMatch entry.patterns storeUrl with
      | some cap => some (entry, cap)
      | none => findStoreMatch storeUrl rest

/-- `validateStoreUrlAndBundle`: for the first matching platform pattern,
check the bundle format and the bundle/URL identifier equality; with no
match at all, a single unrecognized-store-URL error. -/
def validateStoreUrlAndBundle (storeUrl bundle : String) : List ValidationIssue :=
  match findStoreMatch storeUrl STORE_URL_PATTERNS with
  | some (entry, extractedBundle) =>
      condIssue (!entry.bundleOk bundle)
        (.mk ("EQ-App-" ++ entry.keyUpper ++ "-010") .error "BidRequest.app.bundle"
          (entry.keyUpper.toLower ++ ": bundle must match store-specific pattern")
          (some (.str bundle)) (some ("Pattern: " ++ entry.bundleSource)))
      ++ condIssue (extractedBundle != bundle)
        (.mk ("EQ-App-" ++ entry.keyUpper ++ "-015") .error "BidRequest.app"
          ("Bundle ID mismatch: bundle (" ++ bundle ++ ") doesn\x27t match store URL ("
            ++ extractedBundle ++ ")")
          (some (.str bundle)) (some extractedBundle))
  | none =>
      [.mk "EQ-App-016" .error "BidRequest.app.storeurl"
        "Store URL does not match any known platform patterns" (some (.str storeUrl))
        (some "Valid store URL for supported platforms")]

/-- `validateApp`: store URL and bundle checks with the source's early
returns, macro checks, and publisher checks. -/
def validateApp (bidRequest : JsVal) : Except JsError (List ValidationIssue) := do
  let app ← getF bidRequest "app"
  if !truthy app then return []
  let storeurl := optGet app "storeurl"
  if !truthy storeurl || !typeofString storeurl then
    return [.mk "EQ-App-007" .error "BidRequest.app.storeurl"
      "app.storeurl must be present and be a string" (some storeurl)
      (some "Valid store URL string")]
  let bundle := optGet app "bundle"
  if !truthy bundle || !typeofString bundle then
    return [.mk "EQ-App-008" .error "BidRequest.app.bundle"
      "app.bundle must be present and be a string" (some bundle)
      (some "Bundle identifier string")]
  let su := storeurl.strOf
  let bu := bundle.strOf
  let appJson := jsonStringify app
  let pub := optGet app "publisher"
  return validateStoreUrlAndBundle su bu
    ++ condIssue (containsMacros bu)
      (.mk "EQ-App-017" .error "BidRequest.app.bundle"
        "app.bundle must not contain un-replaced macros" (some bundle)
        (some "Bundle without macros"))
    ++ condIssue (containsMacros su)
      (.mk "EQ-App-018" .error "BidRequest.app.storeurl"
        "app.storeurl must not contain un-replaced macros" (some storeurl)
        (some "Store URL without macros"))
    ++ condIssue (containsMacros appJson)
      (.mk "EQ-App-019" .error "BidRequest.app"
        "app object must not contain potential macros" none
        (some "App object without macros"))
    ++ condIssue (!truthy (optGet app "id"))
      (.mk "EQ-App-020" .warning "BidRequest.app.id"
        "app.id is recommended for better identification" none
        (some "App identifier string"))
    ++ condIssue (!truthy bundle || !typeofString bundle)
      (.mk "Core-App-001" .error "BidRequest.app.bundle"
        "app.bundle must be present and be a string" (some bundle)
        (some "String (e.g., \"com.example.app\")"))
    ++ (if !truthy storeurl || !typeofString storeurl then
          [.mk "Core-App-002" .error "BidRequest.app.storeurl"
            "app.storeurl must be present and be a string" (some storeurl)
            (some "Valid URL string")]
        else
          condIssue (!canParseURL su)
            (.mk "Core-App-003" .error "BidRequest.app.storeurl"
              "app.storeurl must be a valid URL" (some storeurl) (some "Valid URL"))
          ++ condIssue (strContainsChar su '\x7b' || strContainsChar su '[')
            (.mk "Core-App-004" .error "BidRequest.app.storeurl"
              "app.storeurl contains un-replaced macros" (some storeurl)
              (some "URL without macros")))
    ++ (if !truthy pub then
          [.mk "Core-App-005" .error "BidRequest.app.publisher"
            "app.publisher object must be present" none
            (some "Publisher object with id")]
        else
          condIssue (!truthy (optGet pub "id") || !typeofString (optGet pub "id"))
            (.mk "Core-App-006" .error "BidRequest.app.publisher.id"
              "app.publisher.id must be present and be a string"
              (some (optGet pub "id")) (some "Non-empty string")))

end BidVal

namespace BidVal

/-! ### Device validator -/

/-- `validateCountryDatacenterMatch`: continent of `geo.country` against the
continent of `ext.auctionDatacenterId`'s data center (warning only). -/
def validateCountryDatacenterMatch (country : JsVal) (datacenterId : JsVal) :
    List ValidationIssue :=
  let countryKey := jsToString country
  if !truthy datacenterId || (COUNTRY_CONTINENT_MAP.lookup countryKey).isNone then []
  else
    match DATA_CENTERS.find? (fun dc => jsEq (.num dc.id) datacenterId) with
    | none => []
    | some dc =>
        match dc.continent with
        | none => []
        | some dcContinent =>
            let countryContinent := (COUNTRY_CONTINENT_MAP.lookup countryKey).getD ""
            condIssue (dcContinent != countryContinent)
              (.mk "EQ-Device-024" .warning "BidRequest.device.geo.country"
                "Country continent mismatch with datacenter continent"
                (some (.str (countryKey ++ " (" ++ countryContinent ++ ") vs Datacenter: "
                  ++ dc.name ++ " (" ++ dcContinent ++ ")")))
                (some "Country continent should match datacenter continent"))

def allZeroIfa : String := "00000000-0000-0000-0000-000000000000"

/-- `validateDevice`: geo/country, make/model/ua, IFA and truncated-IP
consistency, IP validity, device type, and the `Core-Device-*` generation of
the same fields. -/
def validateDevice (bidRequest : JsVal) : Except JsError (List ValidationIssue) := do
  let device ← getF bidRequest "device"
  if !truthy device then return []
  let ext ← getF bidRequest "ext"
  let app ← getF bidRequest "app"
  let geo := optGet device "geo"
  let country := optGet geo "country"
  let ifa := optGet device "ifa"
  let ip := optGet device "ip"
  let ipv6 := optGet device "ipv6"
  let truncFlag := optGet (optGet device "ext") "truncated_ip"
  let dt := optGet device "devicetype"
  let ua := optGet device "ua"
  return (
    (if !truthy geo then
      [.mk "EQ-Device-022" .error "BidRequest.device.geo"
        "device.geo object must be present" none (some "Geo object")]
    else if !truthy country then
      [.mk "EQ-Device-023" .error "BidRequest.device.geo.country"
        "device.geo.country must be present" none
        (some "ISO 3166-1 Alpha-3 country code")]
    else validateCountryDatacenterMatch country (optGet ext "auctionDatacenterId"))
    ++ condIssue (!truthy (optGet device "make"))
      (.mk "EQ-Device-025" .error "BidRequest.device.make"
        "device.make must be present" none (some "Device manufacturer string"))
    ++ condIssue (!truthy (optGet device "model"))
      (.mk "EQ-Device-026" .error "BidRequest.device.model"
        "device.model must be present" none (some "Device model string"))
    ++ (if !truthy ifa then
          [.mk "EQ-Device-027" .error "BidRequest.device.ifa"
            "device.ifa (ID for Advertising) must be present" none
            (some "Valid advertising identifier")]
        else
          condIssue (jsEq ifa (.str allZeroIfa) && !jsEq truncFlag (.num 1))
            (.mk "EQ-Device-032" .error "BidRequest.device.ext.truncated_ip"
              "truncated_ip flag must be set to 1 when device.ifa is all zeros"
              (some truncFlag) (some "1")))
    ++ condIssue (!truthy ip && !truthy ipv6)
      (.mk "EQ-Device-028" .error "BidRequest.device"
        "device must contain either ip (IPv4) or ipv6" none (some "Valid IP address"))
    ++ condIssue (truthy ip && !isValidIPv4 (jsToString ip))
      (.mk "EQ-Device-029" .error "BidRequest.device.ip"
        "device.ip must be a valid IPv4 address" (some ip) (some "Valid IPv4 address"))
    ++ condIssue (truthy ip && isTruncatedIP (jsToString ip) && !jsEq truncFlag (.num 1))
      (.mk "EQ-Device-030" .error "BidRequest.device.ext.truncated_ip"
        "truncated_ip flag must be set to 1 when device.ip is truncated"
        (some truncFlag) (some "1"))
    ++ condIssue (truthy ipv6 && isTruncatedIPv6 (jsToString ipv6) && !jsEq truncFlag (.num 1))
      (.mk "EQ-Device-031" .error "BidRequest.device.ext.truncated_ip"
        "truncated_ip flag must be set to 1 when device.ipv6 is truncated"
        (some truncFlag) (some "1"))
    ++ condIssue dt.isUndefined
      (.mk "EQ-Device-033" .error "BidRequest.device.devicetype"
        "device.devicetype must be present" none (some "Integer 1-7"))
    ++ condIssue (!truthy ua)
      (.mk "EQ-Device-034" .error "BidRequest.device.ua"
        "device.ua (User Agent) must be present" none (some "User Agent string"))
    ++ condIssue (jsEq (optGet (optGet device "ext") "is_app") (.num 1) && !truthy app)
      (.mk "EQ-Device-035" .error "BidRequest.device.ext.is_app"
        "device.ext.is_app=1 but no app object present" none
        (some "App object when is_app=1"))
    ++ condIssue (!truthy ua || !typeofString ua)
      (.mk "Core-Device-001" .error "BidRequest.device.ua"
        "device.ua (User Agent) must be present and be a string" (some ua)
        (some "User Agent string"))
    ++ condIssue (!truthy ip && !truthy ipv6)
      (.mk "Core-Device-002" .error "BidRequest.device"
        "device must contain either ip (IPv4) or ipv6" none (some "Valid IP address"))
    ++ condIssue (truthy ip && !isValidIPv4 (jsToString ip))
      (.mk "Core-Device-003" .error "BidRequest.device.ip"
        "device.ip must be a valid IPv4 address" (some ip) (some "Valid IPv4 address"))
    ++ condIssue (truthy ipv6 && !isValidIPv6 (jsToString ipv6))
      (.mk "Core-Device-004" .error "BidRequest.device.ipv6"
        "device.ipv6 must be a valid IPv6 address" (some ipv6) (some "Valid IPv6 address"))
    ++ condIssue (dt.isUndefined || !numIsInteger dt || jsLtNum dt 1 || jsGtNum dt 7)
      (.mk "Core-Device-005" .error "BidRequest.device.devicetype"
        "device.devicetype must be an integer between 1-7" (some dt)
        (some "Integer 1-7"))
    ++ (if !truthy geo then
          [.mk "Core-Device-006" .error "BidRequest.device.geo"
            "device.geo object must be present" none (some "Geo object with country")]
        else if !truthy country || !typeofString country then
          [.mk "Core-Device-007" .error "BidRequest.device.geo.country"
            "device.geo.country must be present and be a string" (some country)
            (some "ISO 3166-1 Alpha-3 country code")]
        else
          condIssue (country.strOf.length != 3)
            (.mk "Core-Device-008" .error "BidRequest.device.geo.country"
              "device.geo.country must be a valid ISO 3166-1 Alpha-3 code" (some country)
              (some "3-letter country code (e.g., \"USA\")")))
    ++ condIssue (!jsEq (optGet device "lmt") (.num 1)
        && (!truthy ifa || jsEq ifa (.str allZeroIfa)))
      (.mk "Core-Device-009" .warning "BidRequest.device.ifa"
        "device.ifa (ID for Advertising) should be present unless lmt=1" (some ifa)
        (some "Valid advertising ID")))

/-! ### Impression validator -/

/-- `Array#includes(n)` / `String#includes(n)` with a numeric argument:
arrays use value equality, strings search for the rendered number, any other
receiver has no `includes` and throws. -/
def jsIncludesNum (v : JsVal) (q : Rat) : Except JsError Bool :=
  match v with
  | .arr elems => .ok (elems.any (fun x => jsEq x (.num q)))
  | .str s => .ok (strContainsStr s (ratToString q))
  | _ => .error .typeError

/-- `validateVideoImpressionRules`: the `EQ-Video-*` per-impression video
rules (durations, playback method, placement, linearity, pos, protocols,
mimes, size, start delay). -/
def validateVideoImpressionRules (video : JsVal) (impIndex : Nat) :
    Except JsError (List ValidationIssue) := do
  let basePath := "BidRequest.imp[" ++ Nat.repr impIndex ++ "].video"
  let mind := optGet video "minduration"
  let maxd := optGet video "maxduration"
  let pbm := optGet video "playbackmethod"
  let placement := optGet video "placement"
  let mimes := optGet video "mimes"
  let r37 :=
    if truthy mind && truthy maxd then
      match jsSub maxd mind with
      | some durationDiff =>
          condIssue (decide (durationDiff < 30))
            (.mk "EQ-Video-037" .error basePath
              "imp.video.maxduration - imp.video.minduration must be greater than 30 seconds"
              (some (.str (ratToString durationDiff ++ " seconds")))
              (some "Greater than 30 seconds"))
      | none => []
    else []
  let r40 ←
    if jsEq placement (.num 1) && truthy pbm then do
      let included ← jsIncludesNum pbm 1
      pure (condIssue (!included)
        (.mk "EQ-Video-040" .error (basePath ++ ".playbackmethod")
          "imp.video.playbackmethod must include 1 (Autoplay Sounds On) for In-Stream placement"
          (some pbm) (some "Array including 1")))
    else pure []
  return (
    r37
    ++ condIssue (!truthy pbm)
      (.mk "EQ-Video-038" .error (basePath ++ ".playbackmethod")
        "imp.video.playbackmethod must be defined" none
        (some "Array of playback method integers"))
    ++ condIssue placement.isUndefined
      (.mk "EQ-Video-039" .error (basePath ++ ".placement")
        "imp.video.placement must be defined" none (some "Integer placement type"))
    ++ r40
    ++ condIssue (optGet video "linearity").isUndefined
      (.mk "EQ-Video-041" .error (basePath ++ ".linearity")
        "imp.video.linearity must be defined" none (some "Integer linearity type"))
    ++ condIssue (optGet video "pos").isUndefined
      (.mk "EQ-Video-042" .error (basePath ++ ".pos")
        "imp.video.pos (position) must be set" none (some "Integer position value"))
    ++ condIssue (!truthy (optGet video "protocols"))
      (.mk "EQ-Video-043" .error (basePath ++ ".protocols")
        "imp.video.protocols must be defined" none (some "Array of protocol integers"))
    ++ (if !truthy mimes || !mimes.isArr then
          [.mk "EQ-Video-044" .error (basePath ++ ".mimes")
            "imp.video.mimes must be defined as an array" (some mimes)
            (some "Array of MIME type strings")]
        else
          condIssue (!mimes.elemsOf.any (fun m => jsEq m (.str "video/mp4")))
            (.mk "EQ-Video-045" .warning (basePath ++ ".mimes")
              "video/mp4 mime is not set. Usually video bid requests contain video/mp4 mimes"
              (some mimes) (some "Array including \"video/mp4\"")))
    ++ condIssue (!truthy (optGet video "w"))
      (.mk "EQ-Video-046" .error (basePath ++ ".w")
        "imp.video.w (width) must be defined" none (some "Integer width"))
    ++ condIssue (!truthy (optGet video "h"))
      (.mk "EQ-Video-047" .error (basePath ++ ".h")
        "imp.video.h (height) must be defined" none (some "Integer height"))
    ++ (if (optGet video "startdelay").isUndefined then
          [.mk "EQ-Video-049" .warning (basePath ++ ".startdelay")
            "imp.video.startdelay is recommended" none (some "Integer start delay")]
        else
          condIssue (!numIsInteger (optGet video "startdelay"))
            (.mk "EQ-Video-050" .error (basePath ++ ".startdelay")
              "imp.video.startdelay must be an integer (positive, negative or zero)"
              (some (optGet video "startdelay")) (some "Integer value"))))

/-- One impression's issues inside `validateImpressions.forEach`, threading
the uniqueness set of already-seen impression ids. -/
def impIssues (index : Nat) (impIds : List String) (imp : JsVal) :
    Except JsError (List ValidationIssue × List String) :=
  match getF imp "secure" with
  | .error e => .error e
  | .ok secure =>
  match (if truthy (optGet imp "video") then
          validateVideoImpressionRules (optGet imp "video") index
        else .ok []) with
  | .error e => .error e
  | .ok videoIssues =>
  let basePath := "BidRequest.imp[" ++ Nat.repr index ++ "]"
  let video := optGet imp "video"
  let eq36 :=
    condIssue (!secure.isUndefined && !jsEq secure (.num 0) && !jsEq secure (.num 1))
      (.mk "EQ-Imp-036" .error (basePath ++ ".secure")
        "imp.secure must be either 0 or 1" (some secure) (some "0 or 1"))
  let wopv :=
    condIssue (truthy video && !truthy (optGet (optGet imp "ext") "wopv"))
      (.mk "EQ-Imp-048" .warning (basePath ++ ".ext.wopv")
        "imp.ext.wopv is recommended for video impressions" none
        (some "WOPV (Won on Programmatic Video) flag"))
  let idv := optGet imp "id"
  let (idIssues, impIds') :=
    if !truthy idv || !typeofString idv then
      ([ValidationIssue.mk "Core-Imp-001" .error (basePath ++ ".id")
        "Each impression must contain a unique id (string)" (some idv)
        (some "Non-empty string")], impIds)
    else if impIds.contains idv.strOf then
      ([ValidationIssue.mk "Core-Imp-001b" .error (basePath ++ ".id")
        "Impression id must be unique within the request" (some idv)
        (some "Unique string")], impIds)
    else ([], impIds ++ [idv.strOf])
  let mediaCount :=
    (if truthy video then 1 else 0) + (if truthy (optGet imp "native") then 1 else 0)
      + (if truthy (optGet imp "banner") then 1 else 0)
  let mediaIssues :=
    if mediaCount == 0 then
      [ValidationIssue.mk "Core-Imp-002" .error basePath
        "Each impression must contain either video, native, or banner object" none
        (some "One of: video, native, or banner")]
    else
      condIssue (mediaCount > 1)
        (.mk "Core-Imp-003" .error basePath
          "Each impression must contain only one of video, native, or banner"
          (some (.str "Multiple media types present"))
          (some "Only one of: video, native, or banner"))
  let bidfloor := optGet imp "bidfloor"
  let floorIssues :=
    if !bidfloor.isUndefined then
      condIssue (!typeofNumber bidfloor || jsLtNum bidfloor 0)
        (.mk "Core-Imp-004" .warning (basePath ++ ".bidfloor")
          "bidfloor must be a non-negative number" (some bidfloor)
          (some "Non-negative number"))
      ++ condIssue (!truthy (optGet imp "bidfloorcur"))
        (.mk "Core-Imp-005" .error (basePath ++ ".bidfloorcur")
          "bidfloorcur must be present when bidfloor is specified" none
          (some "Currency code (e.g., \"USD\")"))
    else []
  let core006 :=
    condIssue (!secure.isUndefined && !jsEq secure (.num 0) && !jsEq secure (.num 1))
      (.mk "Core-Imp-006" .error (basePath ++ ".secure")
        "secure must be 0 or 1" (some secure) (some "0 or 1"))
  .ok (eq36 ++ videoIssues ++ wopv ++ idIssues ++ mediaIssues ++ floorIssues ++ core006,
    impIds')

def impsLoop : Nat → List String → List JsVal → Except JsError (List ValidationIssue)
  | _, _, [] => .ok []
  | index, impIds, imp :: rest =>
      match impIssues index impIds imp with
      | .error e => .error e
      | .ok (issues, impIds') =>
          match impsLoop (index + 1) impIds' rest with
          | .error e => .error e
          | .ok tail => .ok (issues ++ tail)

/-- `validateImpressions`: per-impression id uniqueness, media-type
exclusivity, bid floor, secure flag, and the per-impression `EQ-*` video
rules.  A missing or non-array `imp` is simply skipped here. -/
def validateImpressions (bidRequest : JsVal) : Except JsError (List ValidationIssue) :=
  match getF bidRequest "imp" with
  | .error e => .error e
  | .ok impv =>
      match impv with
      | .arr imps => impsLoop 0 [] imps
      | _ => .ok []

end BidVal

namespace BidVal

/-! ### CTV profile validator -/

/-- First CTV `forEach` over impressions: full-screen pos and the 16:9
aspect-ratio tolerance.  JavaScript division is modelled exactly: a zero
divisor with a nonzero dividend gives an infinite ratio (which always
exceeds the tolerance and renders as `Infinity`), `0/0` gives `NaN` (which
never does). -/
def ctvLoop1 : Nat → List JsVal → Except JsError (List ValidationIssue)
  | _, [] => .ok []
  | index, imp :: rest => do
      let video ← getF imp "video"
      let here ←
        if !truthy video then pure []
        else do
          let basePath := "BidRequest.imp[" ++ Nat.repr index ++ "].video"
          let pos := optGet video "pos"
          let posIssues :=
            if pos.isUndefined then
              [ValidationIssue.mk "EQ-CTV-051" .error (basePath ++ ".pos")
                "CTV: imp.video.pos must be defined" none (some "Integer position value")]
            else
              condIssue (!jsEq pos (.num 7))
                (.mk "EQ-CTV-052" .error (basePath ++ ".pos")
                  "CTV: imp.video.pos must be set to 7 (Full Screen)" (some pos) (some "7"))
          let w := optGet video "w"
          let h := optGet video "h"
          let aspectIssues :=
            if truthy w && truthy h then
              match jsToNumber w, jsToNumber h with
              | some wn, some hn =>
                  if hn = 0 then
                    if wn = 0 then []
                    else
                      [ValidationIssue.mk "EQ-CTV-053" .error basePath
                        "CTV: imp.video.h and imp.video.w should match a 16:9 aspect ratio"
                        (some (.str (jsToString w ++ "x" ++ jsToString h ++ " ("
                          ++ (if wn < 0 then "-Infinity" else "Infinity") ++ ":1)")))
                        (some "16:9 aspect ratio")]
                  else
                    let aspect := ratDiv wn hn
                    condIssue (decide (mkRat 1 10 < ratAbs (ratSub aspect (mkRat 16 9))))
                      (.mk "EQ-CTV-053" .error basePath
                        "CTV: imp.video.h and imp.video.w should match a 16:9 aspect ratio"
                        (some (.str (jsToString w ++ "x" ++ jsToString h ++ " ("
                          ++ toFixed2 aspect ++ ":1)")))
                        (some "16:9 aspect ratio"))
              | _, _ => []
            else []
          pure (posIssues ++ aspectIssues)
      let tail ← ctvLoop1 (index + 1) rest
      return here ++ tail

/-- `imp.some(imp => imp.video)` in the CTV validator. -/
def ctvHasVideo : List JsVal → Except JsError Bool
  | [] => .ok false
  | imp :: rest => do
      let video ← getF imp "video"
      if truthy video then return true else ctvHasVideo rest

/-- Second CTV `forEach` over impressions: in-stream placement, linear
linearity, full-screen pos. -/
def ctvLoop2 : Nat → List JsVal → Except JsError (List ValidationIssue)
  | _, [] => .ok []
  | index, imp :: rest => do
      let video ← getF imp "video"
      let here :=
        if !truthy video then []
        else
          let basePath := "BidRequest.imp[" ++ Nat.repr index ++ "].video"
          condIssue (!jsEq (optGet video "placement") (.num 1))
            (.mk "CTV-005" .error (basePath ++ ".placement")
              "CTV video placement must be 1 (In-Stream)"
              (some (optGet video "placement")) (some "1"))
          ++ condIssue (!jsEq (optGet video "linearity") (.num 1))
            (.mk "CTV-006" .error (basePath ++ ".linearity")
              "CTV video linearity must be 1 (Linear)"
              (some (optGet video "linearity")) (some "1"))
          ++ condIssue (!jsEq (optGet video "pos") (.num 7))
            (.mk "CTV-007" .error (basePath ++ ".pos")
              "CTV video pos must be 7 (Full Screen)"
              (some (optGet video "pos")) (some "7"))
      let tail ← ctvLoop2 (index + 1) rest
      return here ++ tail

/-- `validateCTV`: the profile that runs when `device.devicetype === 5`.
Calling `.forEach`/`.some` on a truthy non-array `imp` throws, as in the
source. -/
def validateCTV (bidRequest : JsVal) : Except JsError (List ValidationIssue) := do
  let device ← getF bidRequest "device"
  if !truthy device then return []
  if !jsEq (optGet device "devicetype") (.num 5) then return []
  let app ← getF bidRequest "app"
  let impv ← getF bidRequest "imp"
  let loop1 ←
    if truthy impv then
      match impv with
      | .arr imps => ctvLoop1 0 imps
      | _ => .error .typeError
    else pure []
  let hasVideo ←
    if !truthy impv then pure false
    else
      match impv with
      | .arr imps => ctvHasVideo imps
      | _ => .error .typeError
  let loop2 ←
    if truthy impv then
      match impv with
      | .arr imps => ctvLoop2 0 imps
      | _ => .error .typeError
    else pure []
  return (
    condIssue (!truthy app)
      (.mk "EQ-CTV-054" .error "BidRequest.app"
        "app object must be defined for CTV requests" none
        (some "App object for CTV application"))
    ++ loop1
    ++ condIssue (!truthy impv || !hasVideo)
      (.mk "CTV-001" .error "BidRequest.imp"
        "CTV requests must contain video impressions" none
        (some "At least one impression with video object"))
    ++ condIssue (!truthy app)
      (.mk "CTV-002" .error "BidRequest.app"
        "CTV requests must contain app object" none
        (some "App object for CTV application"))
    ++ condIssue (!truthy (optGet device "ifa")
        && !truthy (optGet (optGet (optGet device "ext") "ids") "idfa")
        && !truthy (optGet (optGet (optGet device "ext") "ids") "rida"))
      (.mk "CTV-003" .error "BidRequest.device"
        "CTV requests must contain device.ifa or equivalent ID" none
        (some "Valid device identifier"))
    ++ condIssue (!truthy (optGet device "make") || !truthy (optGet device "model"))
      (.mk "CTV-004" .error "BidRequest.device"
        "CTV requests must contain device.make and device.model"
        (some (.str ("make: " ++ jsToString (optGet device "make") ++ ", model: "
          ++ jsToString (optGet device "model"))))
        (some "Both make and model strings"))
    ++ loop2)

/-! ### Video / Native / Banner validators -/

def videoLoop : Nat → List JsVal → Except JsError (List ValidationIssue)
  | _, [] => .ok []
  | index, imp :: rest => do
      let video ← getF imp "video"
      let here :=
        if !truthy video then []
        else
          let basePath := "BidRequest.imp[" ++ Nat.repr index ++ "].video"
          let mimes := optGet video "mimes"
          let mind := optGet video "minduration"
          let maxd := optGet video "maxduration"
          let protocols := optGet video "protocols"
          let w := optGet video "w"
          let h := optGet video "h"
          (if !truthy mimes || !mimes.isArr || mimes.elemsOf.isEmpty then
            [ValidationIssue.mk "Video-V-001" .error (basePath ++ ".mimes")
              "video.mimes must be present and be a non-empty array of strings" (some mimes)
              (some "Array of MIME types (e.g., [\"video/mp4\"])")]
          else if !mimes.elemsOf.all typeofString then
            [ValidationIssue.mk "Video-V-002" .error (basePath ++ ".mimes")
              "video.mimes must contain only strings" (some mimes)
              (some "Array of string MIME types")]
          else
            condIssue (!mimes.elemsOf.any (fun m => jsEq m (.str "video/mp4")))
              (.mk "Video-V-003" .warning (basePath ++ ".mimes")
                "video.mimes should typically include \"video/mp4\"" (some mimes)
                (some "Array including \"video/mp4\"")))
          ++ condIssue (mind.isUndefined || !numIsInteger mind)
            (.mk "Video-V-004" .error (basePath ++ ".minduration")
              "video.minduration must be present and be an integer" (some mind)
              (some "Integer (seconds)"))
          ++ condIssue (maxd.isUndefined || !numIsInteger maxd)
            (.mk "Video-V-005" .error (basePath ++ ".maxduration")
              "video.maxduration must be present and be an integer" (some maxd)
              (some "Integer (seconds)"))
          ++ condIssue (truthy mind && truthy maxd && jsLtVal maxd mind)
            (.mk "Video-V-006" .error basePath
              "video.maxduration must be greater than or equal to minduration"
              (some (.str ("min: " ++ jsToString mind ++ ", max: " ++ jsToString maxd)))
              (some "maxduration >= minduration"))
          ++ condIssue (!truthy protocols || !protocols.isArr || protocols.elemsOf.isEmpty)
            (.mk "Video-V-007" .error (basePath ++ ".protocols")
              "video.protocols must be present and be a non-empty array of integers"
              (some protocols) (some "Array of protocol integers"))
          ++ condIssue (w.isUndefined || !numIsInteger w || jsLeNum w 0)
            (.mk "Video-V-008" .error (basePath ++ ".w")
              "video.w (width) must be present and be a positive integer" (some w)
              (some "Positive integer"))
          ++ condIssue (h.isUndefined || !numIsInteger h || jsLeNum h 0)
            (.mk "Video-V-009" .error (basePath ++ ".h")
              "video.h (height) must be present and be a positive integer" (some h)
              (some "Positive integer"))
          ++ condIssue ((optGet video "linearity").isUndefined
              || !numIsInteger (optGet video "linearity"))
            (.mk "Video-V-010" .error (basePath ++ ".linearity")
              "video.linearity must be present and be an integer"
              (some (optGet video "linearity")) (some "Integer (1=linear, 2=non-linear)"))
          ++ condIssue ((optGet video "placement").isUndefined
              || !numIsInteger (optGet video "placement"))
            (.mk "Video-V-011" .error (basePath ++ ".placement")
              "video.placement must be present and be an integer"
              (some (optGet video "placement")) (some "Integer placement type"))
          ++ condIssue ((optGet video "startdelay").isUndefined
              || !numIsInteger (optGet video "startdelay"))
            (.mk "Video-V-012" .error (basePath ++ ".startdelay")
              "video.startdelay must be an integer" (some (optGet video "startdelay"))
              (some "Integer start delay"))
      let tail ← videoLoop (index + 1) rest
      return here ++ tail

/-- `validateVideo`: runs the `Video-V-*` rules over every video impression.
A truthy non-array `imp` throws at `imp.forEach`, as in the source. -/
def validateVideo (bidRequest : JsVal) : Except JsError (List ValidationIssue) := do
  let impv ← getF bidRequest "imp"
  if !truthy impv then return []
  match impv with
  | .arr imps => videoLoop 0 imps
  | _ => .error .typeError

/-- The assets loop of the native `try` block; the Boolean records whether a
`TypeError` escaped (a `null` asset entry), which the enclosing `catch`
converts into `Native-N-006` after the issues already pushed. -/
def nativeAssetsLoop (basePath : String) : Nat → List JsVal → List ValidationIssue × Bool
  | _, [] => ([], false)
  | assetIndex, asset :: rest =>
      match getF asset "id" with
      | .error _ => ([], true)
      | .ok aid =>
          let l1 :=
            condIssue (!truthy aid)
              (.mk "Native-N-004" .error
                (basePath ++ ".request.assets[" ++ Nat.repr assetIndex ++ "].id")
                "Each native asset must have an id" none (some "Integer asset ID"))
          let assetTypeCount :=
            (if truthy (optGet asset "title") then 1 else 0)
              + (if truthy (optGet asset "img") then 1 else 0)
              + (if truthy (optGet asset "video") then 1 else 0)
              + (if truthy (optGet asset "data") then 1 else 0)
          let l2 :=
            condIssue (assetTypeCount == 0)
              (.mk "Native-N-005" .error
                (basePath ++ ".request.assets[" ++ Nat.repr assetIndex ++ "]")
                "Each asset must have either title, img, video, or data" none
                (some "One of: title, img, video, or data object"))
          let (tail, threw) := nativeAssetsLoop basePath (assetIndex + 1) rest
          (l1 ++ l2 ++ tail, threw)

def nativeN006 (basePath : String) (request : JsVal) : ValidationIssue :=
  .mk "Native-N-006" .error (basePath ++ ".request")
    "native.request must be valid JSON" (some request) (some "Valid JSON string")

/-- The `try { JSON.parse(native.request); ... } catch` block: a parse
failure or a `TypeError` inside the block lands in the `catch`, which
appends `Native-N-006` after whatever the block already pushed. -/
def nativeTryBlock (basePath : String) (request : JsVal) : List ValidationIssue :=
  match parseJson request.strOf with
  | none => [nativeN006 basePath request]
  | some nativeRequest =>
      match getF nativeRequest "ver" with
      | .error _ => [nativeN006 basePath request]
      | .ok ver =>
          let verIssues :=
            condIssue (!truthy ver)
              (.mk "Native-N-002" .error (basePath ++ ".request.ver")
                "Native request must contain ver (version string)" none
                (some "Version string (e.g., \"1.2\")"))
          let assets := optGet nativeRequest "assets"
          if !truthy assets || !assets.isArr || assets.elemsOf.isEmpty then
            verIssues
              ++ [.mk "Native-N-003" .error (basePath ++ ".request.assets")
                "Native request must contain a non-empty assets array" (some assets)
                (some "Non-empty array of asset objects")]
          else
            let (assetIssues, threw) := nativeAssetsLoop basePath 0 assets.elemsOf
            verIssues ++ assetIssues ++ (if threw then [nativeN006 basePath request] else [])

def nativeLoop : Nat → List JsVal → Except JsError (List ValidationIssue)
  | _, [] => .ok []
  | index, imp :: rest => do
      let native ← getF imp "native"
      let here :=
        if !truthy native then []
        else
          let basePath := "BidRequest.imp[" ++ Nat.repr index ++ "].native"
          let request := optGet native "request"
          if !truthy request || !typeofString request then
            [ValidationIssue.mk "Native-N-001" .error (basePath ++ ".request")
              "native.request must be present and be a string" (some request)
              (some "JSON string")]
          else nativeTryBlock basePath request
      let tail ← nativeLoop (index + 1) rest
      return here ++ tail

/-- `validateNative`: `native.request` must be a JSON string whose payload
carries `ver` and well-formed assets. -/
def validateNative (bidRequest : JsVal) : Except JsError (List ValidationIssue) := do
  let impv ← getF bidRequest "imp"
  if !truthy impv then return []
  match impv with
  | .arr imps => nativeLoop 0 imps
  | _ => .error .typeError

def bannerFormatLoop (basePath : String) : Nat → List JsVal → Except JsError (List ValidationIssue)
  | _, [] => .ok []
  | formatIndex, format :: rest => do
      let w ← getF format "w"
      let here :=
        condIssue (!truthy w || !truthy (optGet format "h"))
          (.mk "Banner-B-002" .error
            (basePath ++ ".format[" ++ Nat.repr formatIndex ++ "]")
            "Each format entry must have w and h" (some format)
            (some "Object with w and h properties"))
      let tail ← bannerFormatLoop basePath (formatIndex + 1) rest
      return here ++ tail

def bannerLoop : Nat → List JsVal → Except JsError (List ValidationIssue)
  | _, [] => .ok []
  | index, imp :: rest => do
      let banner ← getF imp "banner"
      let here ←
        if !truthy banner then pure []
        else do
          let basePath := "BidRequest.imp[" ++ Nat.repr index ++ "].banner"
          let hasWH := !(optGet banner "w").isUndefined && !(optGet banner "h").isUndefined
          let format := optGet banner "format"
          let hasFormat := truthy format && format.isArr
          let b1 :=
            condIssue (!hasWH && !hasFormat)
              (.mk "Banner-B-001" .error basePath
                "banner must contain either w/h or format array" none
                (some "Width/height integers or format array"))
          let b2 ← if hasFormat then bannerFormatLoop basePath 0 format.elemsOf else pure []
          pure (b1 ++ b2)
      let tail ← bannerLoop (index + 1) rest
      return here ++ tail

/-- `validateBanner`: every banner needs `w`/`h` or a `format` array whose
entries each carry `w` and `h`. -/
def validateBanner (bidRequest : JsVal) : Except JsError (List ValidationIssue) := do
  let impv ← getF bidRequest "imp"
  if !truthy impv then return []
  match impv with
  | .arr imps => bannerLoop 0 imps
  | _ => .error .typeError

end BidVal

namespace BidVal

/-! ### Site / User / Regs / Source validators -/

/-- `validateSite`: page URL and publisher id. -/
def validateSite (bidRequest : JsVal) : Except JsError (List ValidationIssue) := do
  let site ← getF bidRequest "site"
  if !truthy site then return []
  let page := optGet site "page"
  let pub := optGet site "publisher"
  return (
    (if !truthy page || !typeofString page then
      [ValidationIssue.mk "Core-Site-001" .error "BidRequest.site.page"
        "site.page must be present and be a string URL" (some page)
        (some "Valid URL string")]
    else
      condIssue (!canParseURL page.strOf)
        (.mk "Core-Site-002" .error "BidRequest.site.page"
          "site.page must be a valid URL" (some page) (some "Valid URL")))
    ++ (if !truthy pub then
          [.mk "Core-Site-003" .error "BidRequest.site.publisher"
            "site.publisher object must be present" none
            (some "Publisher object with id")]
        else
          condIssue (!truthy (optGet pub "id") || !typeofString (optGet pub "id"))
            (.mk "Core-Site-004" .error "BidRequest.site.publisher.id"
              "site.publisher.id must be present and be a string"
              (some (optGet pub "id")) (some "Non-empty string"))))

/-- `validateUser`: recommended user ids (warnings only). -/
def validateUser (bidRequest : JsVal) : Except JsError (List ValidationIssue) := do
  let user ← getF bidRequest "user"
  if !truthy user then return []
  return (
    condIssue (!truthy (optGet user "id"))
      (.mk "Core-User-001" .warning "BidRequest.user.id"
        "user.id (Exchange User ID) should be present" none
        (some "String user identifier"))
    ++ condIssue (!truthy (optGet user "buyeruid"))
      (.mk "Core-User-002" .warning "BidRequest.user.buyeruid"
        "user.buyeruid (DSP User ID) should be present for DSPs" none
        (some "DSP-specific user identifier")))

/-- `validateRegs`: COPPA/GDPR flag ranges, the GDPR-consent requirement and
the GPP section-id requirement. -/
def validateRegs (bidRequest : JsVal) : Except JsError (List ValidationIssue) :=
  match getF bidRequest "regs" with
  | .error e => .error e
  | .ok regs =>
    if !truthy regs then .ok []
    else
      match getF bidRequest "user" with
      | .error e => .error e
      | .ok user =>
        let coppa := optGet regs "coppa"
        let gdpr := optGet (optGet regs "ext") "gdpr"
        .ok (
          condIssue (!coppa.isUndefined && !jsEq coppa (.num 0) && !jsEq coppa (.num 1))
            (.mk "Core-Regs-001" .error "BidRequest.regs.coppa"
              "regs.coppa must be 0 or 1" (some coppa) (some "0 or 1"))
          ++ condIssue (!gdpr.isUndefined && !jsEq gdpr (.num 0) && !jsEq gdpr (.num 1))
            (.mk "Core-Regs-002" .warning "BidRequest.regs.ext.gdpr"
              "regs.ext.gdpr must be 0 or 1" (some gdpr) (some "0 or 1"))
          ++ condIssue (jsEq gdpr (.num 1) && !truthy (optGet (optGet user "ext") "consent"))
            (.mk "Core-Regs-003" .error "BidRequest.user.ext.consent"
              "user.ext.consent (TCF String) must be present when gdpr=1" none
              (some "Valid TCF consent string"))
          ++ condIssue (truthy (optGet regs "gpp") && !truthy (optGet regs "gpp_sid"))
            (.mk "Core-Regs-004" .error "BidRequest.regs.gpp_sid"
              "regs.gpp_sid must be present when gpp is specified" none
              (some "Array of GPP section IDs")))

def schainNodesLoop : Nat → List JsVal → Except JsError (List ValidationIssue)
  | _, [] => .ok []
  | index, node :: rest => do
      let asi ← getF node "asi"
      let here :=
        condIssue (!truthy asi || !truthy (optGet node "sid")
            || (optGet node "hp").isUndefined)
          (.mk "Core-Source-004" .error
            ("BidRequest.source.schain.nodes[" ++ Nat.repr index ++ "]")
            "Each schain node must contain asi, sid, and hp" (some node)
            (some "Object with asi, sid, and hp properties"))
      let tail ← schainNodesLoop (index + 1) rest
      return here ++ tail

/-- `validateSource`: supply-chain object, completeness flag, and per-node
required fields. -/
def validateSource (bidRequest : JsVal) : Except JsError (List ValidationIssue) := do
  let sourcev ← getF bidRequest "source"
  if !truthy sourcev then return []
  let schain := optGet sourcev "schain"
  if !truthy schain then
    return [.mk "Core-Source-001" .error "BidRequest.source.schain"
      "source.schain (SupplyChain Object) must be present" none
      (some "SupplyChain object")]
  let completeIssue :=
    condIssue (!jsEq (optGet schain "complete") (.num 1))
      (.mk "Core-Source-002" .error "BidRequest.source.schain.complete"
        "schain.complete must be 1" (some (optGet schain "complete")) (some "1"))
  let nodes := optGet schain "nodes"
  if !truthy nodes || !nodes.isArr || nodes.elemsOf.isEmpty then
    return completeIssue
      ++ [.mk "Core-Source-003" .error "BidRequest.source.schain.nodes"
        "schain.nodes must be a non-empty array" (some nodes)
        (some "Non-empty array of supply chain nodes")]
  let nodeIssues ← schainNodesLoop 0 nodes.elemsOf
  return completeIssue ++ nodeIssues

/-! ### DOOH / Advanced / Equativ validators -/

/-- `imp?.some(imp => imp.dooh)`. -/
def someDooh : List JsVal → Except JsError Bool
  | [] => .ok false
  | imp :: rest => do
      let dooh ← getF imp "dooh"
      if truthy dooh then return true else someDooh rest

/-- `imp.forEach(imp => { if (imp.dooh) doohObjects.push(imp.dooh) })`. -/
def collectImpDooh : List JsVal → Except JsError (List JsVal)
  | [] => .ok []
  | imp :: rest => do
      let dooh ← getF imp "dooh"
      let tail ← collectImpDooh rest
      return (if truthy dooh then [dooh] else []) ++ tail

def doohObjectsLoop : Nat → List JsVal → List ValidationIssue
  | _, [] => []
  | index, dooh :: rest =>
      condIssue (!truthy (optGet dooh "venuetype"))
        (.mk "DOOH-002" .error ("dooh[" ++ Nat.repr index ++ "].venuetype")
          "DOOH object must contain venuetype" none (some "Venue type identifier"))
      ++ condIssue (!truthy (optGet dooh "venuetypetax"))
        (.mk "DOOH-003" .warning ("dooh[" ++ Nat.repr index ++ "].venuetypetax")
          "DOOH object should contain venuetypetax" none
          (some "Venue type taxonomy identifier"))
      ++ doohObjectsLoop (index + 1) rest

/-- `validateDOOH`: the profile that runs when `device.devicetype === 6`:
a `dooh` object at request or impression level, with venue type fields. -/
def validateDOOH (bidRequest : JsVal) : Except JsError (List ValidationIssue) := do
  let device ← getF bidRequest "device"
  if !truthy device then return []
  if !jsEq (optGet device "devicetype") (.num 6) then return []
  let impv ← getF bidRequest "imp"
  let doohv ← getF bidRequest "dooh"
  let impSome ←
    if impv.isUndefined || impv == .null then pure false
    else
      match impv with
      | .arr imps => someDooh imps
      | _ => .error .typeError
  let hasDooh := impSome || truthy doohv
  let impDoohs ←
    if truthy impv then
      match impv with
      | .arr imps => collectImpDooh imps
      | _ => .error .typeError
    else pure []
  let doohObjects := (if truthy doohv then [doohv] else []) ++ impDoohs
  return (
    condIssue (!hasDooh)
      (.mk "DOOH-001" .error "BidRequest"
        "DOOH requests must contain dooh object in impression or bid request" none
        (some "DOOH object with venue information"))
    ++ doohObjectsLoop 0 doohObjects)

def eidUidsLoop (basePath : String) : Nat → List JsVal → Except JsError (List ValidationIssue)
  | _, [] => .ok []
  | uidIndex, uid :: rest => do
      let idv ← getF uid "id"
      let here :=
        condIssue (!truthy idv)
          (.mk "Advanced-006" .error
            (basePath ++ ".uids[" ++ Nat.repr uidIndex ++ "]")
            "Each UID must have an id" none (some "Object with id property"))
      let tail ← eidUidsLoop basePath (uidIndex + 1) rest
      return here ++ tail

def eidsLoop : Nat → List JsVal → Except JsError (List ValidationIssue)
  | _, [] => .ok []
  | index, eid :: rest => do
      let sourcev ← getF eid "source"
      let basePath := "BidRequest.user.eids[" ++ Nat.repr index ++ "]"
      let here ←
        if !truthy sourcev || !truthy (optGet eid "uids") then
          pure [ValidationIssue.mk "Advanced-005" .error basePath
            "Each EID must have source and uids" (some eid)
            (some "Object with source and uids properties")]
        else
          match optGet eid "uids" with
          | .arr uids => eidUidsLoop basePath 0 uids
          | _ => pure []
      let tail ← eidsLoop (index + 1) rest
      return here ++ tail

/-- `validateAdvanced`: serialized-payload macro scan, `is_app` consistency
with `app`/`site` presence, and EID shape checks. -/
def validateAdvanced (bidRequest : JsVal) : Except JsError (List ValidationIssue) := do
  let jsonString := jsonStringify bidRequest
  let macros := scanMacros jsonString
  let device ← getF bidRequest "device"
  let app ← getF bidRequest "app"
  let site ← getF bidRequest "site"
  let user ← getF bidRequest "user"
  let isApp := optGet (optGet device "ext") "is_app"
  let eids := optGet user "eids"
  let eidIssues ←
    if truthy eids then
      if !eids.isArr then
        pure [ValidationIssue.mk "Advanced-004" .warning "BidRequest.user.eids"
          "user.eids must be an array" (some eids) (some "Array of EID objects")]
      else eidsLoop 0 eids.elemsOf
    else pure []
  return (
    condIssue (!macros.isEmpty)
      (.mk "Advanced-001" .error "BidRequest"
        "Bid request contains un-replaced macros"
        (some (.str (String.intercalate ", " macros)))
        (some "No macros in bid request"))
    ++ condIssue (jsEq isApp (.num 1) && !truthy app)
      (.mk "Advanced-002" .error "BidRequest"
        "device.ext.is_app=1 but no app object present" none
        (some "App object when is_app=1"))
    ++ condIssue (jsEq isApp (.num 0) && !truthy site)
      (.mk "Advanced-003" .error "BidRequest"
        "device.ext.is_app=0 but no site object present" none
        (some "Site object when is_app=0"))
    ++ eidIssues)

/-- `validateEquativRules`: the supply-chain presence rule. -/
def validateEquativRules (bidRequest : JsVal) : Except JsError (List ValidationIssue) := do
  let sourcev ← getF bidRequest "source"
  return condIssue (!truthy (optGet sourcev "schain")
      && !truthy (optGet (optGet sourcev "ext") "schain"))
    (.mk "EQ-Source-021" .error "BidRequest.source.schain"
      "source.schain must be defined" none (some "Supply chain object"))

/-! ### The Orchestrator -/

/-- The category validators in the exact order `validateBidRequest` invokes
them. -/
def validatorPipeline : List (JsVal → Except JsError (List ValidationIssue)) :=
  [validateCoreBidRequest, validateImpressions, validateApp, validateSite,
   validateDevice, validateUser, validateRegs, validateSource, validateVideo,
   validateNative, validateBanner, validateCTV, validateDOOH, validateAdvanced,
   validateEquativRules]

/-- Run validators in order against the shared issue list: each appends its
issues, and any `TypeError` aborts the whole call. -/
def runIssues : List (JsVal → Except JsError (List ValidationIssue)) → JsVal →
    Except JsError (List ValidationIssue)
  | [], _ => .ok []
  | v :: vs, bidRequest =>
      match v bidRequest with
      | .error e => .error e
      | .ok issues =>
          match runIssues vs bidRequest with
          | .error e => .error e
          | .ok tail => .ok (issues ++ tail)

/-- `validateBidRequest`: parse once (a parse failure aborts with the
guarded `Invalid JSON format` error before any rule runs), detect
characteristics, run every category validator in the fixed order, and
declare the request valid exactly when no error-severity issue was
collected. -/
def validateBidRequest (jsonString : String) :
    Except JsError BidRequestValidationResult :=
  match parseJson jsonString with
  | none => .error .invalidJson
  | some bidRequest =>
      match detectBidRequestCharacteristics bidRequest with
      | .error e => .error e
      | .ok detectedCharacteristics =>
          match runIssues validatorPipeline bidRequest with
          | .error e => .error e
          | .ok issues =>
              .ok (BidRequestValidationResult.mk detectedCharacteristics issues
                ((issues.filter (fun i => i.severity == Severity.error)).length == 0))

end BidVal

namespace BidVal

/-! ### Helpers and concrete payloads used by the verification theorems -/

def emptyCharacteristics : DetectedCharacteristics :=
  .mk "Unknown" none none none [] none none

/-- The result of a successful call (with an inert placeholder for failed
calls, used only to state witness corollaries on inputs proven to
succeed). -/
def resultOf (s : String) : BidRequestValidationResult :=
  ((validateBidRequest s).toOption).getD (.mk emptyCharacteristics [] true)

/-- The characteristics of a successful detector run (placeholder as in
`resultOf`). -/
def detOf (bidRequest : JsVal) : DetectedCharacteristics :=
  ((detectBidRequestCharacteristics bidRequest).toOption).getD emptyCharacteristics

/-- The format labels one impression contributes, in the order the
detector's loop probes them. -/
def impFormatLabels (imp : JsVal) : List String :=
  (if truthy (optGet imp "video") then ["Video"] else [])
    ++ (if truthy (optGet imp "native") then ["Native"] else [])
    ++ (if truthy (optGet imp "banner") then ["Display"] else [])
    ++ (if truthy (optGet imp "audio") then ["Audio"] else [])

/-- What the code actually aggregates: every impression's labels in order,
with repetitions, `"Unknown"` when no impression carries a format. -/
def primaryTypeNoDedup (imps : List JsVal) : String :=
  let labels := (imps.map impFormatLabels).flatten
  if labels.isEmpty then "Unknown" else String.intercalate ", " labels

def dedupFirstSeen (xs : List String) : List String :=
  xs.foldl (fun acc x => if acc.contains x then acc else acc ++ [x]) []

/-- The aggregation the specification describes: the same labels
deduplicated in first-seen order.  Kept separate from `primaryTypeNoDedup`
so the two can be compared. -/
def primaryTypeDedupSpec (imps : List JsVal) : String :=
  let labels := dedupFirstSeen ((imps.map impFormatLabels).flatten)
  if labels.isEmpty then "Unknown" else String.intercalate ", " labels

/-- A payload with two video impressions. -/
def twoVideoImps : JsVal :=
  .obj [("imp", .arr [.obj [("video", .obj [])], .obj [("video", .obj [])]])]

/-- A payload with one impression carrying both a video and a native
object. -/
def videoNativeImp : JsVal :=
  .obj [("imp", .arr [.obj [("video", .obj []), ("native", .obj [])]])]

/-- CTV payload: `devicetype` 5 and one 640x480 video impression. -/
def ctvPayload : String :=
  "\x7b\"device\":\x7b\"devicetype\":5\x7d,\"imp\":[\x7b\"video\":\x7b\"w\":640,\"h\":480\x7d\x7d]\x7d"

/-- App payload whose iOS store URL identifier `123456789` equals the
bundle. -/
def iosMatchPayload : String :=
  "\x7b\"app\":\x7b\"storeurl\":\"https://apps.apple.com/us/app/id123456789\",\"bundle\":\"123456789\",\"id\":\"a1\",\"publisher\":\x7b\"id\":\"p1\"\x7d\x7d\x7d"

/-- The same app payload with the bundle changed to `999`. -/
def iosMismatchPayload : String :=
  "\x7b\"app\":\x7b\"storeurl\":\"https://apps.apple.com/us/app/id123456789\",\"bundle\":\"999\",\"id\":\"a1\",\"publisher\":\x7b\"id\":\"p1\"\x7d\x7d\x7d"

/-- A payload with `regs.ext.gdpr = 1` and no `user`. -/
def gdprPayload : String :=
  "\x7b\"regs\":\x7b\"ext\":\x7b\"gdpr\":1\x7d\x7d\x7d"

/-- `gdprPayload` as the parsed value. -/
def gdprParsed : JsVal :=
  .obj [("regs", .obj [("ext", .obj [("gdpr", .num 1)])])]

/-- A payload whose single impression has `secure = 2`. -/
def secure2Payload : JsVal :=
  .obj [("imp", .arr [.obj [("id", .str "1"), ("secure", .num 2),
    ("banner", .obj [("w", .num 300), ("h", .num 250)])]])]

/-- The impression list of `secure2Payload`. -/
def secure2Imps : List JsVal :=
  [.obj [("id", .str "1"), ("secure", .num 2),
    ("banner", .obj [("w", .num 300), ("h", .num 250)])]]

/-- The `EQ-Imp-036` issue raised for impression `index` whose `secure`
value is `secure`. -/
def eqImp036At (index : Nat) (secure : JsVal) : ValidationIssue :=
  .mk "EQ-Imp-036" .error (("BidRequest.imp[" ++ Nat.repr index ++ "]") ++ ".secure")
    "imp.secure must be either 0 or 1" (some secure) (some "0 or 1")

/-- The `Core-Imp-006` issue raised for impression `index` whose `secure`
value is `secure`. -/
def coreImp006At (index : Nat) (secure : JsVal) : ValidationIssue :=
  .mk "Core-Imp-006" .error (("BidRequest.imp[" ++ Nat.repr index ++ "]") ++ ".secure")
    "secure must be 0 or 1" (some secure) (some "0 or 1")

/-- The issue list of a successful `validateImpressions` run (empty
placeholder for failed runs; used only on inputs proven to succeed). -/
def impIssuesOf (bidRequest : JsVal) : List ValidationIssue :=
  ((validateImpressions bidRequest).toOption).getD []

/-- The `Core-Regs-003` missing-TCF-consent issue. -/
def coreRegs003 : ValidationIssue :=
  .mk "Core-Regs-003" .error "BidRequest.user.ext.consent"
    "user.ext.consent (TCF String) must be present when gdpr=1" none
    (some "Valid TCF consent string")

end BidVal

namespace BidVal

/-! ### General lemmas about the embedding -/

theorem getF_eq_ok {v : JsVal} {k : String} {x : JsVal} (h : getF v k = Except.ok x) :
    x = optGet v k := by
  cases v <;> simp [getF] at h <;> exact h.symm

theorem getF_ok_total {v : JsVal} (h1 : v ≠ .null) (h2 : v ≠ .undefined) (k : String) :
    getF v k = Except.ok (optGet v k) := by
  cases v <;> simp_all [getF]

/-- A non-`undefined` member forces a non-nullish receiver. -/
theorem receiver_not_nullish {v : JsVal} {k : String} (h : optGet v k ≠ .undefined) :
    v ≠ .null ∧ v ≠ .undefined := by
  cases v <;> simp_all [optGet]

/-- If the whole pipeline succeeded, every validator in it succeeded, and
every issue a validator emitted is in the concatenated list. -/
theorem runIssues_mem {vs : List (JsVal → Except JsError (List ValidationIssue))}
    {bidRequest : JsVal} {out : List ValidationIssue}
    (h : runIssues vs bidRequest = Except.ok out)
    {v : JsVal → Except JsError (List ValidationIssue)} (hv : v ∈ vs) :
    ∃ l, v bidRequest = Except.ok l ∧ ∀ i ∈ l, i ∈ out := by
  induction vs generalizing out with
  | nil => cases hv
  | cons w ws ih =>
    rw [runIssues] at h
    cases hw : w bidRequest with
    | error e => rw [hw] at h; cases h
    | ok l1 =>
      rw [hw] at h
      cases hrest : runIssues ws bidRequest with
      | error e => rw [hrest] at h; cases h
      | ok l2 =>
        rw [hrest] at h
        cases h
        rcases List.mem_cons.mp hv with hveq | hvmem
        · exact ⟨l1, hveq ▸ hw, fun i hi => List.mem_append_left _ hi⟩
        · obtain ⟨l, hl, hsub⟩ := ih hrest hvmem
          exact ⟨l, hl, fun i hi => List.mem_append_right _ (hsub i hi)⟩

end BidVal

namespace BidVal

/-! ### C1 -/

/-- C1: for every input string that parses as valid JSON and for which a
`ValidationResult` is returned, `isValid` is `true` exactly when the issues
list contains no `error`-severity entry; `warning` and `info` entries do not
affect it. -/
theorem isValid_iff_no_error_issue (s : String) (r : BidRequestValidationResult)
    (h : validateBidRequest s = Except.ok r) :
    r.isValid = true ↔ ∀ i ∈ r.issues, i.severity ≠ Severity.error := by
  cases hp : parseJson s with
  | none => simp only [validateBidRequest, hp] at h; cases h
  | some bidRequest =>
    simp only [validateBidRequest, hp] at h
    cases hd : detectBidRequestCharacteristics bidRequest with
    | error e => simp only [hd] at h; cases h
    | ok dc =>
      simp only [hd] at h
      cases hr : runIssues validatorPipeline bidRequest with
      | error e => simp only [hr] at h; cases h
      | ok issues =>
        simp only [hr] at h
        cases h
        show ((issues.filter fun i => i.severity == Severity.error).length == 0) = true ↔ _
        rw [beq_iff_eq, List.length_eq_zero, List.filter_eq_nil_iff]
        simp

/-- C1 witness: the empty-object payload validates successfully and the
equivalence holds for its result. -/
theorem isValid_iff_no_error_issue_witness :
    (resultOf "\x7b\x7d").isValid = true ↔
      ∀ i ∈ (resultOf "\x7b\x7d").issues, i.severity ≠ Severity.error :=
  isValid_iff_no_error_issue "\x7b\x7d" (resultOf "\x7b\x7d") (by rfl)

/-! ### C2 -/

/-- C2: for every input string that is not valid JSON, the call fails with
the guarded `Invalid JSON format` error — distinct from any validation
issue — before any rule runs, and no `ValidationResult` (in particular no
partial or empty issue list) is produced. -/
theorem invalid_json_rejected (s : String) (h : parseJson s = none) :
    validateBidRequest s = Except.error JsError.invalidJson := by
  rw [validateBidRequest, h]

/-- C2 witness: a concrete non-JSON input. -/
theorem invalid_json_rejected_witness :
    validateBidRequest "not json" = Except.error JsError.invalidJson :=
  invalid_json_rejected "not json" (by rfl)

/-! ### C9 -/

/-- C9: `validateBidRequest` is deterministic — two successful calls on the
identical input string yield the same `ValidationResult`, issues, order and
characteristics included.  In the source the only stateful-looking matcher
(the global-flag regex in `containsMacros`) is created afresh inside the
function on every call, so nothing carries over between calls and the whole
pipeline embeds as a pure function. -/
theorem validate_deterministic (s : String) (r1 r2 : BidRequestValidationResult)
    (h1 : validateBidRequest s = Except.ok r1)
    (h2 : validateBidRequest s = Except.ok r2) :
    r1 = r2 ∧ r1.issues = r2.issues ∧
      r1.detectedCharacteristics = r2.detectedCharacteristics := by
  have h := Except.ok.inj (h1.symm.trans h2)
  exact ⟨h, by rw [h], by rw [h]⟩

/-- C9 witness: both hypotheses discharged on the empty-object payload. -/
theorem validate_deterministic_witness :
    resultOf "\x7b\x7d" = resultOf "\x7b\x7d" ∧
      (resultOf "\x7b\x7d").issues = (resultOf "\x7b\x7d").issues ∧
      (resultOf "\x7b\x7d").detectedCharacteristics =
        (resultOf "\x7b\x7d").detectedCharacteristics :=
  validate_deterministic "\x7b\x7d" (resultOf "\x7b\x7d") (resultOf "\x7b\x7d")
    (by rfl) (by rfl)

end BidVal

namespace BidVal

/-! ### C6 -/

/-- C6: the empty JSON object yields error-severity issues for the missing
`id` (Core-BR-001), the missing `imp` (both EQ-BR-003 and Core-BR-002), the
missing `at` (Core-BR-004), the missing `device` (EQ-BR-002), the missing
`source` (EQ-BR-004), the missing `user` (EQ-BR-005), and for carrying
neither `site` nor `app` (EQ-BR-001). -/
theorem empty_object_required_errors :
    (match validateBidRequest "\x7b\x7d" with
      | .ok r =>
          ["Core-BR-001", "EQ-BR-003", "Core-BR-002", "Core-BR-004", "EQ-BR-002",
           "EQ-BR-004", "EQ-BR-005", "EQ-BR-001"].all
            (fun ruleId =>
              r.issues.any (fun i => i.id == ruleId && i.severity == Severity.error))
      | .error _ => false) = true := by rfl

/-! ### C3 (the code throws where the claim requires an issue) -/

/-- C3, failing inputs: both valid-JSON payloads of unexpected shape — a
non-array `imp`, and a non-array `video.playbackmethod` on an in-stream
video — make the call throw a `TypeError` (at `imp.some` in the
characteristic detector, resp. `playbackmethod.includes` in the video
rules) instead of returning a `ValidationResult` with an issue. -/
theorem unexpected_shape_throws :
    validateBidRequest "\x7b\"imp\": 1\x7d" = Except.error JsError.typeError ∧
      validateBidRequest
        "\x7b\"imp\":[\x7b\"video\":\x7b\"placement\":1,\"playbackmethod\":5\x7d\x7d]\x7d"
        = Except.error JsError.typeError :=
  ⟨by rfl, by rfl⟩

/-! ### C5 -/

/-- C5 counterexample: on the CTV payload with a 640x480 video impression
the 16:9 tolerance check does fire, but the reported actual value is
`640x480 (1.33:1)` — no issue in the result mentions the claimed
`0.71:1`. -/
theorem ctv_aspect_actual_is_133 :
    (match validateBidRequest ctvPayload with
      | .ok r =>
          r.issues.any (fun i =>
            i.id == "EQ-CTV-053"
              && i.actualValue == some (JsVal.str "640x480 (1.33:1)"))
          && r.issues.all (fun i =>
            !(match i.actualValue with
              | some (.str a) => strContainsStr a "0.71"
              | _ => false))
      | .error _ => false) = true := by rfl

/-- C5 amended: for the CTV payload with `w=640, h=480`, the result
contains the `EQ-CTV-053` aspect-ratio error, whose actual value compares
`1.33:1` (not `0.71:1`) against the `16:9` target. -/
theorem ctv_aspect_error_raised :
    (match validateBidRequest ctvPayload with
      | .ok r =>
          r.issues.any (fun i =>
            i.id == "EQ-CTV-053" && i.severity == Severity.error
              && i.actualValue == some (JsVal.str "640x480 (1.33:1)")
              && i.expectedValue == some "16:9 aspect ratio")
      | .error _ => false) = true := by rfl

/-! ### C7 -/

set_option maxRecDepth 100000 in
/-- C7: with the iOS store URL `https://apps.apple.com/us/app/id123456789`
and bundle `123456789`, no bundle/URL-mismatch issue (`EQ-App-IOS-015`),
bundle-format issue (`EQ-App-IOS-010`) or unrecognized-store-URL issue
(`EQ-App-016`) is emitted; with the bundle changed to `999`, an
`EQ-App-IOS-015` error is emitted whose message, actual value and expected
value identify both the bundle `999` and the extracted identifier
`123456789`. -/
theorem store_url_bundle_cross_validation :
    (match validateBidRequest iosMatchPayload with
      | .ok r =>
          r.issues.all (fun i =>
            !(i.id == "EQ-App-IOS-015" || i.id == "EQ-App-IOS-010"
              || i.id == "EQ-App-016"))
      | .error _ => false) = true
    ∧ (match validateBidRequest iosMismatchPayload with
      | .ok r =>
          r.issues.any (fun i =>
            i.id == "EQ-App-IOS-015" && i.severity == Severity.error
              && i.actualValue == some (JsVal.str "999")
              && i.expectedValue == some "123456789"
              && strContainsStr i.message "999"
              && strContainsStr i.message "123456789")
      | .error _ => false) = true :=
  ⟨by rfl, by rfl⟩

end BidVal

namespace BidVal

/-! ### C4 -/

theorem detectImpTypes_labels {imp : JsVal} {t : List String} {f : List JsVal}
    (h : detectImpTypes imp = Except.ok (t, f)) : t = impFormatLabels imp := by
  rw [detectImpTypes] at h
  cases hv : getF imp "video" with
  | error e => simp only [hv] at h; cases h
  | ok video =>
    simp only [hv] at h
    have hveq := getF_eq_ok hv
    cases hf : (if truthy video then
        if truthy (optGet video "mimes") then spreadElems (optGet video "mimes")
        else .ok []
      else .ok [] : Except JsError (List JsVal)) with
    | error e => simp only [hf] at h; cases h
    | ok formats =>
      simp only [hf] at h
      cases h
      rw [impFormatLabels, hveq]

theorem detectTypesLoop_labels :
    ∀ {imps : List JsVal} {ts : List String} {fs : List JsVal},
      detectTypesLoop imps = Except.ok (ts, fs) →
      ts = (imps.map impFormatLabels).flatten := by
  intro imps
  induction imps with
  | nil => intro ts fs h; rw [detectTypesLoop] at h; cases h; rfl
  | cons imp rest ih =>
    intro ts fs h
    rw [detectTypesLoop] at h
    simp only [bind, Except.bind] at h
    cases h1 : detectImpTypes imp with
    | error e => rw [h1] at h; cases h
    | ok tf =>
      rw [h1] at h
      obtain ⟨t, f⟩ := tf
      cases h2 : detectTypesLoop rest with
      | error e => rw [h2] at h; cases h
      | ok tsfs =>
        rw [h2] at h
        obtain ⟨ts', fs'⟩ := tsfs
        simp only [pure, Except.pure, Except.ok.injEq, Prod.mk.injEq] at h
        obtain ⟨hts, _⟩ := h
        rw [← hts, detectImpTypes_labels h1, ih h2, List.map_cons, List.flatten_cons]

/-- C4 amended: for every payload whose `imp` is an array and whose
detection succeeds, the detected `primaryType` is the concatenation, over
all impressions in order, of each impression's format labels among
{Video, Native, Display, Audio} — with a label repeated whenever several
impressions share a format, not deduplicated — joined with `", "`, and
`"Unknown"` when no impression carries any of these formats. -/
theorem primaryType_concatenates_labels (bidRequest : JsVal) (imps : List JsVal)
    (c : DetectedCharacteristics)
    (hdet : detectBidRequestCharacteristics bidRequest = Except.ok c)
    (himp : optGet bidRequest "imp" = JsVal.arr imps) :
    c.primaryType = primaryTypeNoDedup imps := by
  have himpne : optGet bidRequest "imp" ≠ JsVal.undefined := by
    rw [himp]; intro h; cases h
  have hnn : bidRequest ≠ JsVal.null ∧ bidRequest ≠ JsVal.undefined :=
    receiver_not_nullish himpne
  have hfinal : ∀ (ts : List String) (fs : List JsVal),
      detectTypesLoop imps = Except.ok (ts, fs) →
      (if ts.length > 0 then String.intercalate ", " ts else "Unknown")
        = primaryTypeNoDedup imps := by
    intro ts fs hloop
    rw [detectTypesLoop_labels hloop, primaryTypeNoDedup]
    cases (imps.map impFormatLabels).flatten with
    | nil => simp
    | cons a l => simp
  rw [detectBidRequestCharacteristics] at hdet
  simp only [getF_ok_total hnn.1 hnn.2, himp, truthy, JsVal.isArr, JsVal.elemsOf,
    Bool.and_self, if_true] at hdet
  cases hloop : detectTypesLoop imps with
  | error e => simp only [hloop] at hdet; cases hdet
  | ok p =>
    obtain ⟨ts, fs⟩ := p
    simp only [hloop] at hdet
    cases hpod : somePodid imps with
    | error e => simp only [hpod] at hdet; cases hdet
    | ok anyPod =>
      simp only [hpod] at hdet
      cases anyPod with
      | false =>
        simp only [Bool.false_eq_true, if_false] at hdet
        cases hdet
        exact hfinal ts fs hloop
      | true =>
        simp only [if_true] at hdet
        cases hcount : countPodid imps with
        | error e => simp only [hcount] at hdet; cases hdet
        | ok slots =>
          simp only [hcount] at hdet
          cases hdurs : poddurValues imps with
          | error e => simp only [hdurs] at hdet; cases hdet
          | ok durs =>
            simp only [hdurs] at hdet
            cases hdet
            exact hfinal ts fs hloop

end BidVal

namespace BidVal

/-- C4 counterexample: with two video impressions, the detector reports
`"Video, Video"` — the label is not deduplicated — while the claimed
deduplicated first-seen aggregation of the same impressions would be
`"Video"`. -/
theorem primaryType_not_deduplicated :
    (match detectBidRequestCharacteristics twoVideoImps with
      | .ok c => c.primaryType == "Video, Video"
      | .error _ => false) = true
    ∧ primaryTypeDedupSpec [.obj [("video", .obj [])], .obj [("video", .obj [])]]
        = "Video"
    ∧ "Video, Video" ≠ "Video" :=
  ⟨by rfl, by rfl, by decide⟩

/-- C4 witness: the amended statement applied to one impression carrying
both a video and a native object. -/
theorem primaryType_concatenates_labels_witness :
    (detOf videoNativeImp).primaryType
      = primaryTypeNoDedup [.obj [("video", .obj []), ("native", .obj [])]] :=
  primaryType_concatenates_labels videoNativeImp
    [.obj [("video", .obj []), ("native", .obj [])]]
    (detOf videoNativeImp) (by rfl) (by rfl)

end BidVal

namespace BidVal

/-! ### C8 -/

/-- A member chain can only produce a non-`undefined`, non-`length` value
when the receiver is a plain object. -/
theorem chain_forces_obj {x : JsVal} {k : String}
    (h : optGet x k ≠ .undefined) (hk : (k == "length") = false) :
    ∃ fields, x = JsVal.obj fields := by
  cases x with
  | obj fields => exact ⟨fields, rfl⟩
  | undefined => exact absurd rfl h
  | null => exact absurd rfl h
  | bool b => exact absurd rfl h
  | num q => exact absurd rfl h
  | str s => exact absurd (by simp [optGet, hk]) h
  | arr elems => exact absurd (by simp [optGet, hk]) h

/-- C8: for every input whose payload carries `regs.ext.gdpr = 1` and no
truthy `user.ext.consent`, a successful validation result contains the
error-severity `Core-Regs-003` issue at field path
`BidRequest.user.ext.consent`, reporting the missing TCF consent string. -/
theorem gdpr_requires_tcf_consent (s : String) (bidRequest : JsVal)
    (r : BidRequestValidationResult)
    (hrun : validateBidRequest s = Except.ok r)
    (hparse : parseJson s = some bidRequest)
    (hgdpr : optGet (optGet (optGet bidRequest "regs") "ext") "gdpr" = JsVal.num 1)
    (hconsent : truthy (optGet (optGet (optGet bidRequest "user") "ext") "consent")
      = false) :
    coreRegs003 ∈ r.issues := by
  have h1 : optGet (optGet bidRequest "regs") "ext" ≠ JsVal.undefined := by
    intro hu
    rw [hu] at hgdpr
    exact JsVal.noConfusion hgdpr
  obtain ⟨fields, hf⟩ := chain_forces_obj h1 (by rfl)
  have hregne : optGet bidRequest "regs" ≠ JsVal.undefined := by
    rw [hf]; intro h; cases h
  have hb : bidRequest ≠ JsVal.null ∧ bidRequest ≠ JsVal.undefined :=
    receiver_not_nullish hregne
  rw [hf] at hgdpr
  -- Locate the regs validator inside the successful pipeline run.
  rw [validateBidRequest] at hrun
  rw [hparse] at hrun
  cases hd : detectBidRequestCharacteristics bidRequest with
  | error e => simp only [hd] at hrun; cases hrun
  | ok dc =>
    simp only [hd] at hrun
    cases hr : runIssues validatorPipeline bidRequest with
    | error e => simp only [hr] at hrun; cases hrun
    | ok issues =>
      simp only [hr] at hrun
      cases hrun
      have hvmem : validateRegs ∈ validatorPipeline := by
        rw [validatorPipeline]
        repeat first
          | exact List.mem_cons_self _ _
          | apply List.mem_cons_of_mem
      obtain ⟨l, hl, hsub⟩ := runIssues_mem hr hvmem
      refine hsub _ ?_
      rw [validateRegs] at hl
      simp only [getF_ok_total hb.1 hb.2, hf] at hl
      simp only [show truthy (JsVal.obj fields) = true from rfl, Bool.not_true,
        Bool.false_eq_true, if_false] at hl
      simp only [hgdpr, hconsent] at hl
      simp only [show jsEq (JsVal.num 1) (JsVal.num 1) = true from rfl, Bool.not_false,
        Bool.and_self] at hl
      simp only [condIssue] at hl
      simp at hl
      subst hl
      simp [coreRegs003]

end BidVal

namespace BidVal

/-- C8 witness: the payload `regs.ext.gdpr = 1` with no `user` at all. -/
theorem gdpr_requires_tcf_consent_witness :
    coreRegs003 ∈ (resultOf gdprPayload).issues :=
  gdpr_requires_tcf_consent gdprPayload gdprParsed (resultOf gdprPayload)
    (by rfl) (by rfl) (by rfl) (by rfl)

end BidVal

namespace BidVal

/-! ### C10 -/

theorem impIssues_secure_both {index : Nat} {impIds : List String} {imp : JsVal}
    {l : List ValidationIssue} {impIds' : List String} {secure : JsVal}
    (h : impIssues index impIds imp = Except.ok (l, impIds'))
    (hsec : optGet imp "secure" = secure)
    (hdef : secure.isUndefined = false)
    (h0 : jsEq secure (JsVal.num 0) = false)
    (h1 : jsEq secure (JsVal.num 1) = false) :
    eqImp036At index secure ∈ l ∧ coreImp006At index secure ∈ l := by
  rw [impIssues] at h
  cases hs : getF imp "secure" with
  | error e => simp only [hs] at h; cases h
  | ok sec =>
    simp only [hs] at h
    have hseq : sec = secure := by rw [getF_eq_ok hs, hsec]
    subst hseq
    cases hv : (if truthy (optGet imp "video") then
        validateVideoImpressionRules (optGet imp "video") index
      else .ok []) with
    | error e => simp only [hv] at h; cases h
    | ok videoIssues =>
      simp only [hv] at h
      simp only [hdef, h0, h1, Bool.not_false, Bool.and_self] at h
      simp only [condIssue, if_true] at h
      cases h
      constructor
      · simp [eqImp036At]
      · simp [coreImp006At]

theorem impsLoop_secure_both :
    ∀ (imps : List JsVal) (k index : Nat) (impIds : List String)
      (out : List ValidationIssue) (impk secure : JsVal),
      impsLoop index impIds imps = Except.ok out →
      imps[k]? = some impk →
      optGet impk "secure" = secure →
      secure.isUndefined = false →
      jsEq secure (JsVal.num 0) = false →
      jsEq secure (JsVal.num 1) = false →
      eqImp036At (index + k) secure ∈ out ∧ coreImp006At (index + k) secure ∈ out := by
  intro imps
  induction imps with
  | nil => intro k index impIds out impk secure h hk; cases hk
  | cons imp rest ih =>
    intro k index impIds out impk secure h hk hsec hdef h0 h1
    rw [impsLoop] at h
    cases hi : impIssues index impIds imp with
    | error e => simp only [hi] at h; cases h
    | ok p =>
      obtain ⟨l, impIds'⟩ := p
      simp only [hi] at h
      cases hrest : impsLoop (index + 1) impIds' rest with
      | error e => simp only [hrest] at h; cases h
      | ok tail =>
        simp only [hrest] at h
        cases h
        cases k with
        | zero =>
          have himpk : impk = imp := by
            simp only [List.getElem?_cons_zero, Option.some.injEq] at hk
            exact hk.symm
          subst himpk
          have hb := impIssues_secure_both hi hsec hdef h0 h1
          rw [Nat.add_zero]
          exact ⟨List.mem_append_left _ hb.1, List.mem_append_left _ hb.2⟩
        | succ k' =>
          have hk' : rest[k']? = some impk := by
            simpa using hk
          have hb := ih k' (index + 1) impIds' tail impk secure hrest hk' hsec hdef h0 h1
          have harith : index + 1 + k' = index + (k' + 1) := by omega
          rw [harith] at hb
          exact ⟨List.mem_append_right _ hb.1, List.mem_append_right _ hb.2⟩

/-- C10: for every impression whose `secure` field is present and neither
`0` nor `1`, one run of the impression validator emits two distinct error
issues for that same field — `EQ-Imp-036` and `Core-Imp-006`, both at the
impression's `.secure` field path — i.e. both rule generations fire for the
single underlying defect. -/
theorem secure_flag_double_error (bidRequest : JsVal) (imps : List JsVal) (k : Nat)
    (impk secure : JsVal) (out : List ValidationIssue)
    (hrun : validateImpressions bidRequest = Except.ok out)
    (himp : optGet bidRequest "imp" = JsVal.arr imps)
    (hk : imps[k]? = some impk)
    (hsec : optGet impk "secure" = secure)
    (hdef : secure.isUndefined = false)
    (h0 : jsEq secure (JsVal.num 0) = false)
    (h1 : jsEq secure (JsVal.num 1) = false) :
    eqImp036At k secure ∈ out ∧ coreImp006At k secure ∈ out := by
  have himpne : optGet bidRequest "imp" ≠ JsVal.undefined := by
    rw [himp]; intro h; cases h
  have hb : bidRequest ≠ JsVal.null ∧ bidRequest ≠ JsVal.undefined :=
    receiver_not_nullish himpne
  rw [validateImpressions] at hrun
  simp only [getF_ok_total hb.1 hb.2, himp] at hrun
  have := impsLoop_secure_both imps k 0 [] out impk secure hrun hk hsec hdef h0 h1
  rw [Nat.zero_add] at this
  exact this

/-- C10 witness: a single banner impression with `secure = 2`. -/
theorem secure_flag_double_error_witness :
    eqImp036At 0 (JsVal.num 2) ∈ impIssuesOf secure2Payload
      ∧ coreImp006At 0 (JsVal.num 2) ∈ impIssuesOf secure2Payload :=
  secure_flag_double_error secure2Payload secure2Imps 0
    (.obj [("id", .str "1"), ("secure", .num 2),
      ("banner", .obj [("w", .num 300), ("h", .num 250)])])
    (JsVal.num 2) (impIssuesOf secure2Payload)
    (by rfl) (by rfl) (by rfl) (by rfl) (by rfl) (by rfl) (by rfl)

end BidVal
